import Mathlib

/-!
Verification development for generate_xcodeproj.py, the project-descriptor
generator of the em-copilot repository.  The Python source is shallowly
embedded: the renderer pbxproj() becomes a pure Lean function from a
manifest (ordered lists of source and resource paths) and an identifier
assignment to the list of emitted text lines; main() becomes a function
producing the ordered list of filesystem and console events it performs.
-/

/-- Models str.endswith from Python: the suffix test used on manifest paths
(source lines 139 and 141). -/
def endswith (s suf : String) : Bool := List.isSuffixOf suf.data s.data

/-- Models os.path.basename: the characters after the last slash
(source lines 130, 138, 167, 249, 263). -/
def basename (p : String) : String :=
  String.mk ((p.data.reverse.takeWhile (fun c => c ≠ '/')).reverse)

/-- Hex digit characters as produced by the hex formatting inside
uuid.uuid4().hex: lowercase a-f. -/
def hexChar (d : Nat) : Char := if d < 10 then Char.ofNat (48 + d) else Char.ofNat (87 + d)

/-- Fixed-width base-16 digit expansion, most significant digit first, as in
the 32-character zero-padded string uuid.uuid4().hex. -/
def hexDigits : Nat → Nat → List Char
  | 0, _ => []
  | w + 1, n => hexDigits w (n / 16) ++ [hexChar (n % 16)]

/-- Models make_uuid (source lines 18-19): uuid.uuid4().hex[:24].upper().
The underlying 128-bit random value is abstracted as the Nat argument;
uuid4().hex is its 32-digit lowercase hex rendering, of which the first 24
characters are taken and uppercased. -/
def make_uuid (n : Nat) : String :=
  String.mk (((hexDigits 32 n).take 24).map Char.toUpper)

/-- Uppercase hexadecimal character test (digits 0-9 and letters A-F). -/
def isUpperHex (c : Char) : Bool :=
  (48 ≤ c.toNat && c.toNat ≤ 57) || (65 ≤ c.toNat && c.toNat ≤ 70)

/-- Hard-coded source manifest entries (source lines 25-57). -/
def SOURCE_FILES : List String := [
  "EMCopilot/App/EMCopilotApp.swift",
  "EMCopilot/Models/DirectReport.swift",
  "EMCopilot/Models/GeneratedDocument.swift",
  "EMCopilot/Models/Program.swift",
  "EMCopilot/Models/OneOnOneSession.swift",
  "EMCopilot/Services/ClaudeService.swift",
  "EMCopilot/Services/Prompts.swift",
  "EMCopilot/Views/ContentView.swift",
  "EMCopilot/Views/Shared/MarkdownContentView.swift",
  "EMCopilot/Views/Onboarding/OnboardingView.swift",
  "EMCopilot/Views/Home/HomeView.swift",
  "EMCopilot/Views/DirectReports/DirectReportsView.swift",
  "EMCopilot/Views/DirectReports/AddDirectReportView.swift",
  "EMCopilot/Views/Generator/DocumentGeneratorView.swift",
  "EMCopilot/Views/Generator/GeneratedDocumentOutputView.swift",
  "EMCopilot/Views/Programs/ProgramManagerView.swift",
  "EMCopilot/Views/OneOnOne/OneOnOneHubView.swift",
  "EMCopilot/Views/OneOnOne/OneOnOneSessionView.swift",
  "EMCopilot/Views/OneOnOne/AddArtifactView.swift",
  "EMCopilot/Views/Settings/SettingsView.swift"]

/-- Hard-coded resource manifest entries (source lines 59-61). -/
def RESOURCE_FILES : List String := ["EMCopilot/Resources/Assets.xcassets"]

/-- Project constants (source lines 67-71). -/
def APP_NAME : String := "EMCopilot"

def BUNDLE_ID_BASE : String := "com.yourname.emcopilot"

def MACOS_DEPLOY : String := "14.0"

def IOS_DEPLOY : String := "17.0"

def SWIFT_VERSION : String := "5.10"

/-- Fixed assets-catalog path constant (source line 107). -/
def ASSETS_XCASSETS : String := "EMCopilot/Resources/Assets.xcassets"

/-- Manifest of the generator: the ordered source-kind and resource-kind
path lists (the injected form of SOURCE_FILES and RESOURCE_FILES, per the
spec the manifest is the input the renderer is quantified over). -/
structure Manifest where
  sources : List String
  resources : List String
deriving DecidableEq

/-- The manifest hard-coded in the script. -/
def defaultManifest : Manifest := ⟨SOURCE_FILES, RESOURCE_FILES⟩

/-- Identifier assignment: one field per module-level make_uuid() call
(source lines 77-95) plus the two per-path dictionaries file_refs and
build_files (source lines 98-105), abstracted as functions from path to
identifier (their final state after the filling loops). -/
structure IdEnv where
  PROJECT_UUID : String
  MAIN_GROUP_UUID : String
  PRODUCTS_GROUP_UUID : String
  TARGET_UUID : String
  PRODUCT_REF_UUID : String
  SOURCES_PHASE_UUID : String
  RESOURCES_PHASE_UUID : String
  FRAMEWORKS_PHASE_UUID : String
  DEBUG_CONFIG_UUID : String
  RELEASE_CONFIG_UUID : String
  TARGET_DEBUG_CFG_UUID : String
  TARGET_RELEASE_CFG_UUID : String
  PROJECT_CFGLIST_UUID : String
  TARGET_CFGLIST_UUID : String
  SWIFTDATA_FW_REF_UUID : String
  SWIFTDATA_BUILD_UUID : String
  file_refs : String → String
  build_files : String → String

/-- Keep-first deduplication worker: seen accumulates keys already present. -/
def dedupAux : List String → List String → List String
  | [], _ => []
  | a :: l, seen => if a ∈ seen then dedupAux l seen else a :: dedupAux l (a :: seen)

/-- Keep-first deduplication, modelling Python dict insertion order: the key
list of file_refs and build_files after the filling loops of source lines
100-105 (a repeated path keeps its first position, later assignments only
overwrite the value). -/
def dedupF (l : List String) : List String := dedupAux l []

/-- Ordered key list of the file_refs and build_files dictionaries: all
source paths then all resource paths, first occurrence kept. -/
def dictKeys (m : Manifest) : List String := dedupF (m.sources ++ m.resources)

/-- Extension test of the PBXFileReference renderer (source lines 139-142):
true when the if/elif chain emits a line for the path. -/
def recognized (p : String) : Bool := endswith p ".swift" || endswith p ".xcassets"

/-- Begin-of-section comment line (source lines 128, 136, 148, and so on). -/
def sectionHead (name : String) : String := "\n/* Begin " ++ (name ++ " section */")

/-- End-of-section comment line. -/
def sectionEnd (name : String) : String := "/* End " ++ (name ++ " section */")

/-- Fixed preamble lines of the descriptor (source lines 118-125). -/
def headerLines : List String := [
  "// !$*UTF8*$!",
  "\x7b",
  "\tarchiveVersion = 1;",
  "\tclasses = \x7b",
  "\t\x7d;",
  "\tobjectVersion = 77;",
  "\tobjects = \x7b",
  ""]

/-- One PBXBuildFile object line (source lines 129-131). -/
def buildFileLine (env : IdEnv) (p : String) : String :=
  "\t\t" ++ (env.build_files p ++ " /* " ++ basename p ++ " in Sources */ = \x7bisa = PBXBuildFile; fileRef = " ++ env.file_refs p ++ " /* " ++ basename p ++ " */; \x7d;")

/-- The SwiftData framework PBXBuildFile line (source line 132). -/
def swiftdataBuildLine (env : IdEnv) : String :=
  "\t\t" ++ (env.SWIFTDATA_BUILD_UUID ++ " /* SwiftData.framework in Frameworks */ = \x7bisa = PBXBuildFile; fileRef = " ++ env.SWIFTDATA_FW_REF_UUID ++ " /* SwiftData.framework */; \x7d;")

/-- PBXBuildFile section (source lines 127-133). -/
def buildFileSectionLines (env : IdEnv) (m : Manifest) : List String :=
  sectionHead "PBXBuildFile" ::
    (dictKeys m).map (buildFileLine env) ++
    [swiftdataBuildLine env, sectionEnd "PBXBuildFile"]

/-- PBXFileReference line for a .swift path (source line 140). -/
def swiftFileRefLine (env : IdEnv) (p : String) : String :=
  "\t\t" ++ (env.file_refs p ++ " /* " ++ basename p ++ " */ = \x7bisa = PBXFileReference; lastKnownFileType = sourcecode.swift; name = " ++ basename p ++ "; path = " ++ p ++ "; sourceTree = \"<group>\"; \x7d;")

/-- PBXFileReference line for a .xcassets path (source line 142). -/
def xcassetsFileRefLine (env : IdEnv) (p : String) : String :=
  "\t\t" ++ (env.file_refs p ++ " /* " ++ basename p ++ " */ = \x7bisa = PBXFileReference; lastKnownFileType = folder.assetcatalog; name = " ++ basename p ++ "; path = " ++ p ++ "; sourceTree = \"<group>\"; \x7d;")

/-- The if/elif chain of the PBXFileReference loop (source lines 139-142):
paths with any other extension produce no line at all (no else branch). -/
def fileRefLineOpt (env : IdEnv) (p : String) : Option String :=
  if endswith p ".swift" then some (swiftFileRefLine env p)
  else if endswith p ".xcassets" then some (xcassetsFileRefLine env p)
  else none

/-- Product-app PBXFileReference line (source line 143). -/
def productRefLine (env : IdEnv) : String :=
  "\t\t" ++ (env.PRODUCT_REF_UUID ++ " /* " ++ APP_NAME ++ ".app */ = \x7bisa = PBXFileReference; explicitFileType = wrapper.application; includeInIndex = 0; path = " ++ APP_NAME ++ ".app; sourceTree = BUILT_PRODUCTS_DIR; \x7d;")

/-- SwiftData framework PBXFileReference line (source line 144). -/
def swiftdataRefLine (env : IdEnv) : String :=
  "\t\t" ++ (env.SWIFTDATA_FW_REF_UUID ++ " /* SwiftData.framework */ = \x7bisa = PBXFileReference; lastKnownFileType = wrapper.framework; name = SwiftData.framework; path = System/Library/Frameworks/SwiftData.framework; sourceTree = SDKROOT; \x7d;")

/-- PBXFileReference section (source lines 135-145). -/
def fileRefSectionLines (env : IdEnv) (m : Manifest) : List String :=
  sectionHead "PBXFileReference" ::
    (dictKeys m).filterMap (fileRefLineOpt env) ++
    [productRefLine env, swiftdataRefLine env, sectionEnd "PBXFileReference"]

/-- PBXFrameworksBuildPhase section (source lines 147-157). -/
def frameworksSectionLines (env : IdEnv) : List String := [
  sectionHead "PBXFrameworksBuildPhase",
  "\t\t" ++ (env.FRAMEWORKS_PHASE_UUID ++ " /* Frameworks */ = \x7b"),
  "\t\t\tisa = PBXFrameworksBuildPhase;",
  "\t\t\tbuildActionMask = 2147483647;",
  "\t\t\tfiles = (",
  "\t\t\t\t" ++ (env.SWIFTDATA_BUILD_UUID ++ " /* SwiftData.framework in Frameworks */,"),
  "\t\t\t);",
  "\t\t\trunOnlyForDeploymentPostprocessing = 0;",
  "\t\t\x7d;",
  sectionEnd "PBXFrameworksBuildPhase"]

/-- Main-group child line for one file reference (source lines 166-168). -/
def groupChildLine (env : IdEnv) (p : String) : String :=
  "\t\t\t\t" ++ (env.file_refs p ++ " /* " ++ basename p ++ " */,")

/-- PBXGroup section: main group then Products group (source lines 159-184). -/
def groupSectionLines (env : IdEnv) (m : Manifest) : List String :=
  sectionHead "PBXGroup" ::
    ("\t\t" ++ (env.MAIN_GROUP_UUID ++ " = \x7b")) ::
    "\t\t\tisa = PBXGroup;" ::
    "\t\t\tchildren = (" ::
    ((dictKeys m).map (groupChildLine env) ++
    ["\t\t\t\t" ++ (env.PRODUCTS_GROUP_UUID ++ " /* Products */,"),
     "\t\t\t\t" ++ (env.SWIFTDATA_FW_REF_UUID ++ " /* SwiftData.framework */,"),
     "\t\t\t);",
     "\t\t\tsourceTree = \"<group>\";",
     "\t\t\x7d;",
     "\t\t" ++ (env.PRODUCTS_GROUP_UUID ++ " /* Products */ = \x7b"),
     "\t\t\tisa = PBXGroup;",
     "\t\t\tchildren = (",
     "\t\t\t\t" ++ (env.PRODUCT_REF_UUID ++ " /* " ++ APP_NAME ++ ".app */,"),
     "\t\t\t);",
     "\t\t\tname = Products;",
     "\t\t\tsourceTree = \"<group>\";",
     "\t\t\x7d;",
     sectionEnd "PBXGroup"])

/-- PBXNativeTarget section (source lines 186-207). -/
def targetSectionLines (env : IdEnv) : List String := [
  sectionHead "PBXNativeTarget",
  "\t\t" ++ (env.TARGET_UUID ++ " /* " ++ APP_NAME ++ " */ = \x7b"),
  "\t\t\tisa = PBXNativeTarget;",
  "\t\t\tbuildConfigurationList = " ++ (env.TARGET_CFGLIST_UUID ++ " /* Build configuration list for PBXNativeTarget \"" ++ APP_NAME ++ "\" */;"),
  "\t\t\tbuildPhases = (",
  "\t\t\t\t" ++ (env.SOURCES_PHASE_UUID ++ " /* Sources */,"),
  "\t\t\t\t" ++ (env.RESOURCES_PHASE_UUID ++ " /* Resources */,"),
  "\t\t\t\t" ++ (env.FRAMEWORKS_PHASE_UUID ++ " /* Frameworks */,"),
  "\t\t\t);",
  "\t\t\tbuildRules = (",
  "\t\t\t);",
  "\t\t\tdependencies = (",
  "\t\t\t);",
  "\t\t\tname = " ++ (APP_NAME ++ ";"),
  "\t\t\tpackageProductDependencies = (",
  "\t\t\t);",
  "\t\t\tproductName = " ++ (APP_NAME ++ ";"),
  "\t\t\tproductReference = " ++ (env.PRODUCT_REF_UUID ++ " /* " ++ APP_NAME ++ ".app */;"),
  "\t\t\tproductType = \"com.apple.product-type.application\";",
  "\t\t\x7d;",
  sectionEnd "PBXNativeTarget"]

/-- PBXProject section (source lines 209-239). -/
def projectSectionLines (env : IdEnv) : List String := [
  sectionHead "PBXProject",
  "\t\t" ++ (env.PROJECT_UUID ++ " /* Project object */ = \x7b"),
  "\t\t\tisa = PBXProject;",
  "\t\t\tattributes = \x7b",
  "\t\t\t\tBuildIndependentTargetsInParallel = 1;",
  "\t\t\t\tLastSwiftUpdateCheck = 1500;",
  "\t\t\t\tLastUpgradeCheck = 1500;",
  "\t\t\t\tTargetAttributes = \x7b",
  "\t\t\t\t\t" ++ (env.TARGET_UUID ++ " = \x7b"),
  "\t\t\t\t\t\tCreatedOnToolsVersion = 15.0;",
  "\t\t\t\t\t\x7d;",
  "\t\t\t\t\x7d;",
  "\t\t\t\x7d;",
  "\t\t\tbuildConfigurationList = " ++ (env.PROJECT_CFGLIST_UUID ++ " /* Build configuration list for PBXProject \"" ++ APP_NAME ++ "\" */;"),
  "\t\t\tcompatibilityVersion = \"Xcode 15.0\";",
  "\t\t\tdevelopmentRegion = en;",
  "\t\t\thasScannedForEncodings = 0;",
  "\t\t\tknownRegions = (",
  "\t\t\t\ten,",
  "\t\t\t\tBase,",
  "\t\t\t);",
  "\t\t\tmainGroup = " ++ (env.MAIN_GROUP_UUID ++ ";"),
  "\t\t\tproductRefGroup = " ++ (env.PRODUCTS_GROUP_UUID ++ " /* Products */;"),
  "\t\t\tprojectDirPath = \"\";",
  "\t\t\tprojectRoot = \"\";",
  "\t\t\ttargets = (",
  "\t\t\t\t" ++ (env.TARGET_UUID ++ " /* " ++ APP_NAME ++ " */,"),
  "\t\t\t);",
  "\t\t\x7d;",
  sectionEnd "PBXProject"]

/-- PBXResourcesBuildPhase section (source lines 241-254): the files list
holds one entry, present only when the fixed assets path is a key of the
build_files dictionary; resource entries are not iterated. -/
def resourcesSectionLines (env : IdEnv) (m : Manifest) : List String :=
  sectionHead "PBXResourcesBuildPhase" ::
    ("\t\t" ++ (env.RESOURCES_PHASE_UUID ++ " /* Resources */ = \x7b")) ::
    "\t\t\tisa = PBXResourcesBuildPhase;" ::
    "\t\t\tbuildActionMask = 2147483647;" ::
    "\t\t\tfiles = (" ::
    ((if ASSETS_XCASSETS ∈ dictKeys m then
        ["\t\t\t\t" ++ (env.build_files ASSETS_XCASSETS ++ " /* " ++ basename ASSETS_XCASSETS ++ " in Resources */,")]
      else []) ++
    ["\t\t\t);",
     "\t\t\trunOnlyForDeploymentPostprocessing = 0;",
     "\t\t\x7d;",
     sectionEnd "PBXResourcesBuildPhase"])

/-- One sources-phase file line (source lines 262-264). -/
def sourcesPhaseLine (env : IdEnv) (p : String) : String :=
  "\t\t\t\t" ++ (env.build_files p ++ " /* " ++ basename p ++ " in Sources */,")

/-- PBXSourcesBuildPhase section (source lines 256-268): iterates
SOURCE_FILES in manifest order. -/
def sourcesSectionLines (env : IdEnv) (m : Manifest) : List String :=
  sectionHead "PBXSourcesBuildPhase" ::
    ("\t\t" ++ (env.SOURCES_PHASE_UUID ++ " /* Sources */ = \x7b")) ::
    "\t\t\tisa = PBXSourcesBuildPhase;" ::
    "\t\t\tbuildActionMask = 2147483647;" ::
    "\t\t\tfiles = (" ::
    (m.sources.map (sourcesPhaseLine env) ++
    ["\t\t\t);",
     "\t\t\trunOnlyForDeploymentPostprocessing = 0;",
     "\t\t\x7d;",
     sectionEnd "PBXSourcesBuildPhase"])

/-- XCBuildConfiguration section: project Debug, project Release, target
Debug, target Release (source lines 270-367). -/
def configSectionLines (env : IdEnv) : List String := [
  sectionHead "XCBuildConfiguration",
  "\t\t" ++ (env.DEBUG_CONFIG_UUID ++ " /* Debug */ = \x7b"),
  "\t\t\tisa = XCBuildConfiguration;",
  "\t\t\tbuildSettings = \x7b",
  "\t\t\t\tALWAYS_SEARCH_USER_PATHS = NO;",
  "\t\t\t\tCLANG_ENABLE_MODULES = YES;",
  "\t\t\t\tCOPY_PHASE_STRIP = NO;",
  "\t\t\t\tDEBUG_INFORMATION_FORMAT = dwarf;",
  "\t\t\t\tENABLE_STRICT_OBJC_MSGSEND = YES;",
  "\t\t\t\tENABLE_TESTABILITY = YES;",
  "\t\t\t\tGCC_C_LANGUAGE_STANDARD = gnu17;",
  "\t\t\t\tGCC_DYNAMIC_NO_PIC = NO;",
  "\t\t\t\tGCC_OPTIMIZATION_LEVEL = 0;",
  "\t\t\t\tGCC_PREPROCESSOR_DEFINITIONS = (\"DEBUG=1\", \"$(inherited)\");",
  "\t\t\t\tMTL_ENABLE_DEBUG_INFO = INCLUDE_SOURCE;",
  "\t\t\t\tMTL_FAST_MATH = YES;",
  "\t\t\t\tONLY_ACTIVE_ARCH = YES;",
  "\t\t\t\tSWIFT_ACTIVE_COMPILATION_CONDITIONS = DEBUG;",
  "\t\t\t\tSWIFT_OPTIMIZATION_LEVEL = \"-Onone\";",
  "\t\t\t\x7d;",
  "\t\t\tname = Debug;",
  "\t\t\x7d;",
  "\t\t" ++ (env.RELEASE_CONFIG_UUID ++ " /* Release */ = \x7b"),
  "\t\t\tisa = XCBuildConfiguration;",
  "\t\t\tbuildSettings = \x7b",
  "\t\t\t\tALWAYS_SEARCH_USER_PATHS = NO;",
  "\t\t\t\tCLANG_ENABLE_MODULES = YES;",
  "\t\t\t\tCOPY_PHASE_STRIP = NO;",
  "\t\t\t\tDEBUG_INFORMATION_FORMAT = \"dwarf-with-dsym\";",
  "\t\t\t\tENABLE_NS_ASSERTIONS = NO;",
  "\t\t\t\tENABLE_STRICT_OBJC_MSGSEND = YES;",
  "\t\t\t\tGCC_C_LANGUAGE_STANDARD = gnu17;",
  "\t\t\t\tMTL_ENABLE_DEBUG_INFO = NO;",
  "\t\t\t\tMTL_FAST_MATH = YES;",
  "\t\t\t\tSWIFT_COMPILATION_MODE = wholemodule;",
  "\t\t\t\tSWIFT_OPTIMIZATION_LEVEL = \"-O\";",
  "\t\t\t\x7d;",
  "\t\t\tname = Release;",
  "\t\t\x7d;",
  "\t\t" ++ (env.TARGET_DEBUG_CFG_UUID ++ " /* Debug */ = \x7b"),
  "\t\t\tisa = XCBuildConfiguration;",
  "\t\t\tbuildSettings = \x7b",
  "\t\t\t\tASSETCATALOG_COMPILER_APPICON_NAME = AppIcon;",
  "\t\t\t\tASSETCATALOG_COMPILER_GLOBAL_ACCENT_COLOR_NAME = AccentColor;",
  "\t\t\t\tCOMBINE_HIDPI_IMAGES = YES;",
  "\t\t\t\tCURRENT_PROJECT_VERSION = 1;",
  "\t\t\t\tGENERATE_INFOPLIST_FILE = YES;",
  "\t\t\t\tINFOPLIST_KEY_LSApplicationCategoryType = \"public.app-category.productivity\";",
  "\t\t\t\tINFOPLIST_KEY_NSHumanReadableCopyright = \"\";",
  "\t\t\t\tINFOPLIST_KEY_NSPrincipalClass = NSApplication;",
  "\t\t\t\tMARKETING_VERSION = 1.0;",
  "\t\t\t\tMACOS_DEPLOYMENT_TARGET = " ++ (MACOS_DEPLOY ++ ";"),
  "\t\t\t\tIPHONEOS_DEPLOYMENT_TARGET = " ++ (IOS_DEPLOY ++ ";"),
  "\t\t\t\tPRODUCT_BUNDLE_IDENTIFIER = \"" ++ (BUNDLE_ID_BASE ++ "\";"),
  "\t\t\t\tPRODUCT_NAME = \"$(TARGET_NAME)\";",
  "\t\t\t\tSDKROOT = auto;",
  "\t\t\t\tSUPPORTED_PLATFORMS = \"macosx iphoneos iphonesimulator\";",
  "\t\t\t\tSWIFT_EMIT_LOC_STRINGS = YES;",
  "\t\t\t\tSWIFT_VERSION = " ++ (SWIFT_VERSION ++ ";"),
  "\t\t\t\tTARGETED_DEVICE_FAMILY = \"1,2\";",
  "\t\t\t\x7d;",
  "\t\t\tname = Debug;",
  "\t\t\x7d;",
  "\t\t" ++ (env.TARGET_RELEASE_CFG_UUID ++ " /* Release */ = \x7b"),
  "\t\t\tisa = XCBuildConfiguration;",
  "\t\t\tbuildSettings = \x7b",
  "\t\t\t\tASSETCATALOG_COMPILER_APPICON_NAME = AppIcon;",
  "\t\t\t\tASSETCATALOG_COMPILER_GLOBAL_ACCENT_COLOR_NAME = AccentColor;",
  "\t\t\t\tCOMBINE_HIDPI_IMAGES = YES;",
  "\t\t\t\tCURRENT_PROJECT_VERSION = 1;",
  "\t\t\t\tGENERATE_INFOPLIST_FILE = YES;",
  "\t\t\t\tINFOPLIST_KEY_LSApplicationCategoryType = \"public.app-category.productivity\";",
  "\t\t\t\tINFOPLIST_KEY_NSHumanReadableCopyright = \"\";",
  "\t\t\t\tINFOPLIST_KEY_NSPrincipalClass = NSApplication;",
  "\t\t\t\tMARKETING_VERSION = 1.0;",
  "\t\t\t\tMACOS_DEPLOYMENT_TARGET = " ++ (MACOS_DEPLOY ++ ";"),
  "\t\t\t\tIPHONEOS_DEPLOYMENT_TARGET = " ++ (IOS_DEPLOY ++ ";"),
  "\t\t\t\tPRODUCT_BUNDLE_IDENTIFIER = \"" ++ (BUNDLE_ID_BASE ++ "\";"),
  "\t\t\t\tPRODUCT_NAME = \"$(TARGET_NAME)\";",
  "\t\t\t\tSDKROOT = auto;",
  "\t\t\t\tSUPPORTED_PLATFORMS = \"macosx iphoneos iphonesimulator\";",
  "\t\t\t\tSWIFT_EMIT_LOC_STRINGS = YES;",
  "\t\t\t\tSWIFT_VERSION = " ++ (SWIFT_VERSION ++ ";"),
  "\t\t\t\tTARGETED_DEVICE_FAMILY = \"1,2\";",
  "\t\t\t\x7d;",
  "\t\t\tname = Release;",
  "\t\t\x7d;",
  sectionEnd "XCBuildConfiguration"]

/-- XCConfigurationList section (source lines 369-389). -/
def cfgListSectionLines (env : IdEnv) : List String := [
  sectionHead "XCConfigurationList",
  "\t\t" ++ (env.PROJECT_CFGLIST_UUID ++ " /* Build configuration list for PBXProject \"" ++ APP_NAME ++ "\" */ = \x7b"),
  "\t\t\tisa = XCConfigurationList;",
  "\t\t\tbuildConfigurations = (",
  "\t\t\t\t" ++ (env.DEBUG_CONFIG_UUID ++ " /* Debug */,"),
  "\t\t\t\t" ++ (env.RELEASE_CONFIG_UUID ++ " /* Release */,"),
  "\t\t\t);",
  "\t\t\tdefaultConfigurationIsVisible = 0;",
  "\t\t\tdefaultConfigurationName = Release;",
  "\t\t\x7d;",
  "\t\t" ++ (env.TARGET_CFGLIST_UUID ++ " /* Build configuration list for PBXNativeTarget \"" ++ APP_NAME ++ "\" */ = \x7b"),
  "\t\t\tisa = XCConfigurationList;",
  "\t\t\tbuildConfigurations = (",
  "\t\t\t\t" ++ (env.TARGET_DEBUG_CFG_UUID ++ " /* Debug */,"),
  "\t\t\t\t" ++ (env.TARGET_RELEASE_CFG_UUID ++ " /* Release */,"),
  "\t\t\t);",
  "\t\t\tdefaultConfigurationIsVisible = 0;",
  "\t\t\tdefaultConfigurationName = Release;",
  "\t\t\x7d;",
  sectionEnd "XCConfigurationList"]

/-- Closing lines of the descriptor (source lines 391-393). -/
def footerLines (env : IdEnv) : List String := [
  "\t\x7d;",
  "\trootObject = " ++ (env.PROJECT_UUID ++ " /* Project object */;"),
  "\x7d"]

/-- All lines of the descriptor text, in emission order (source lines
116-393: the successive lines.append calls of pbxproj). -/
def pbxprojLines (env : IdEnv) (m : Manifest) : List String :=
  headerLines ++
  buildFileSectionLines env m ++
  fileRefSectionLines env m ++
  frameworksSectionLines env ++
  groupSectionLines env m ++
  targetSectionLines env ++
  projectSectionLines env ++
  resourcesSectionLines env m ++
  sourcesSectionLines env m ++
  configSectionLines env ++
  cfgListSectionLines env ++
  footerLines env

/-- Models pbxproj() (source lines 116-395): newline join of the line list. -/
def pbxproj (env : IdEnv) (m : Manifest) : String :=
  String.intercalate ("\n") (pbxprojLines env m)

/-- Identifiers defined as objects in the descriptor, one entry per object
header line, in emission order: PBXBuildFile objects (lines 129-132),
PBXFileReference objects (lines 137-144, only recognized extensions),
the frameworks phase (line 149), the two groups (lines 163, 176), the
target (line 188), the project (line 211), the resources phase (line 243),
the sources phase (line 258), the four configurations (lines 274, 297,
316, 342), and the two configuration lists (lines 371, 380).
defsObjTail lists the fixed structural objects in their emission order. -/
def defsObjTail (env : IdEnv) : List String :=
  [env.PRODUCT_REF_UUID, env.SWIFTDATA_FW_REF_UUID,
   env.FRAMEWORKS_PHASE_UUID,
   env.MAIN_GROUP_UUID, env.PRODUCTS_GROUP_UUID,
   env.TARGET_UUID, env.PROJECT_UUID,
   env.RESOURCES_PHASE_UUID, env.SOURCES_PHASE_UUID,
   env.DEBUG_CONFIG_UUID, env.RELEASE_CONFIG_UUID,
   env.TARGET_DEBUG_CFG_UUID, env.TARGET_RELEASE_CFG_UUID,
   env.PROJECT_CFGLIST_UUID, env.TARGET_CFGLIST_UUID]

def pbxprojDefs (env : IdEnv) (m : Manifest) : List String :=
  (dictKeys m).map env.build_files ++
  [env.SWIFTDATA_BUILD_UUID] ++
  ((dictKeys m).filter recognized).map env.file_refs ++
  defsObjTail env

/-- Identifiers appearing in cross-reference position in the descriptor:
the fileRef fields of the PBXBuildFile lines (lines 131-132), the
frameworks-phase file list (line 153), main-group children (lines 168-170),
Products-group children (line 179), target buildConfigurationList,
buildPhases and productReference (lines 190-194, 204), project
buildConfigurationList, mainGroup, productRefGroup and targets (lines 223,
231, 232, 236), the resources-phase file list (line 250), the
sources-phase file list (line 264), the buildConfigurations of the two
configuration lists (lines 374-375, 383-384), and rootObject (line 392). -/
def pbxprojRefs (env : IdEnv) (m : Manifest) : List String :=
  (dictKeys m).map env.file_refs ++
  [env.SWIFTDATA_FW_REF_UUID] ++
  [env.SWIFTDATA_BUILD_UUID] ++
  (dictKeys m).map env.file_refs ++
  [env.PRODUCTS_GROUP_UUID, env.SWIFTDATA_FW_REF_UUID] ++
  [env.PRODUCT_REF_UUID] ++
  [env.TARGET_CFGLIST_UUID,
   env.SOURCES_PHASE_UUID, env.RESOURCES_PHASE_UUID, env.FRAMEWORKS_PHASE_UUID,
   env.PRODUCT_REF_UUID] ++
  [env.PROJECT_CFGLIST_UUID, env.MAIN_GROUP_UUID, env.PRODUCTS_GROUP_UUID, env.TARGET_UUID] ++
  (if ASSETS_XCASSETS ∈ dictKeys m then [env.build_files ASSETS_XCASSETS] else []) ++
  m.sources.map env.build_files ++
  [env.DEBUG_CONFIG_UUID, env.RELEASE_CONFIG_UUID,
   env.TARGET_DEBUG_CFG_UUID, env.TARGET_RELEASE_CFG_UUID] ++
  [env.PROJECT_UUID]

/-- Every identifier the run allocates, in allocation order (source lines
77-105): the sixteen structural identifiers (structIds, in allocation
order), then one file_refs value and one build_files value per dictionary
key. -/
def structIds (env : IdEnv) : List String :=
  [env.PROJECT_UUID, env.MAIN_GROUP_UUID, env.PRODUCTS_GROUP_UUID,
   env.TARGET_UUID, env.PRODUCT_REF_UUID,
   env.SOURCES_PHASE_UUID, env.RESOURCES_PHASE_UUID, env.FRAMEWORKS_PHASE_UUID,
   env.DEBUG_CONFIG_UUID, env.RELEASE_CONFIG_UUID,
   env.TARGET_DEBUG_CFG_UUID, env.TARGET_RELEASE_CFG_UUID,
   env.PROJECT_CFGLIST_UUID, env.TARGET_CFGLIST_UUID,
   env.SWIFTDATA_FW_REF_UUID, env.SWIFTDATA_BUILD_UUID]

def allIds (env : IdEnv) (m : Manifest) : List String :=
  structIds env ++
  (dictKeys m).map env.file_refs ++
  (dictKeys m).map env.build_files

/-- Build-membership identifiers listed by the sources build phase, in
emission order (source lines 262-264). -/
def sourcesPhaseFiles (env : IdEnv) (m : Manifest) : List String :=
  m.sources.map env.build_files

/-- Build-membership identifiers listed by the resources build phase
(source lines 247-250): only the fixed assets-catalog path is considered,
and only when it is a key of build_files. -/
def resourcesPhaseFiles (env : IdEnv) (m : Manifest) : List String :=
  if ASSETS_XCASSETS ∈ dictKeys m then [env.build_files ASSETS_XCASSETS] else []

/-- Observable actions main() performs, in order: directory creation,
file writes and console prints. -/
inductive Event where
  | mkdirp (path : String)
  | write (path content : String)
  | print (s : String)
deriving DecidableEq

/-- Local variable base of create_asset_catalog (source line 402). -/
def assetsBase : String := "EMCopilot/Resources/Assets.xcassets"

/-- Serialized form of the catalog-root Contents.json stub written by
json.dump with indent 2 (source lines 408-409). -/
def rootContentsJson : String :=
  "\x7b\n  \"info\": \x7b\n    \"author\": \"xcode\",\n    \"version\": 1\n  \x7d\n\x7d"

/-- Serialized form of the AppIcon Contents.json stub (source lines 412-418). -/
def appIconContentsJson : String :=
  "\x7b\n  \"images\": [\n    \x7b\n      \"idiom\": \"universal\",\n      \"platform\": \"ios\",\n      \"size\": \"1024x1024\"\n    \x7d,\n    \x7b\n      \"idiom\": \"mac\",\n      \"size\": \"1024x1024\",\n      \"scale\": \"1x\"\n    \x7d\n  ],\n  \"info\": \x7b\n    \"author\": \"xcode\",\n    \"version\": 1\n  \x7d\n\x7d"

/-- Serialized form of the AccentColor Contents.json stub (source lines 421-427). -/
def accentColorContentsJson : String :=
  "\x7b\n  \"colors\": [\n    \x7b\n      \"idiom\": \"universal\",\n      \"color\": \x7b\n        \"color-space\": \"srgb\",\n        \"components\": \x7b\n          \"red\": \"0.337\",\n          \"green\": \"0.333\",\n          \"blue\": \"0.996\",\n          \"alpha\": \"1.000\"\n        \x7d\n      \x7d\n    \x7d\n  ],\n  \"info\": \x7b\n    \"author\": \"xcode\",\n    \"version\": 1\n  \x7d\n\x7d"

/-- Events of create_asset_catalog (source lines 401-429): three directory
creations, three JSON writes, one confirmation print. -/
def createAssetCatalogEvents : List Event := [
  Event.mkdirp assetsBase,
  Event.mkdirp (assetsBase ++ "/AppIcon.appiconset"),
  Event.mkdirp (assetsBase ++ "/AccentColor.colorset"),
  Event.write (assetsBase ++ "/Contents.json") rootContentsJson,
  Event.write (assetsBase ++ "/AppIcon.appiconset/Contents.json") appIconContentsJson,
  Event.write (assetsBase ++ "/AccentColor.colorset/Contents.json") accentColorContentsJson,
  Event.print ("  ✓ Created " ++ assetsBase)]

/-- Value of proj_dir in main (source line 438). -/
def proj_dir : String := "EMCopilot.xcodeproj"

/-- Value of proj_path in main, os.path.join of proj_dir and the fixed
file name (source line 442). -/
def proj_path : String := "EMCopilot.xcodeproj/project.pbxproj"

/-- Per-path console line of the verification loop (source lines 454-459). -/
def checkLine (fs : String → Bool) (p : String) : String :=
  if fs p then "  ✓ " ++ p else "  ✗ MISSING: " ++ p

/-- Missing list accumulated by the verification loop (source lines
453-459): the source-kind paths whose existence check fails. -/
def missingOf (m : Manifest) (fs : String → Bool) : List String :=
  m.sources.filter (fun p => !(fs p))

/-- Warning line printed when files are missing (source line 463). -/
def warnLine (n : Nat) : String :=
  "⚠️  " ++ (toString n ++ " source file(s) are missing. Create them before building.")

/-- Final guidance line carrying the bundle identifier (source line 471). -/
def bundleIdLine : String :=
  "   Bundle ID: " ++ (BUNDLE_ID_BASE ++ "  ← change this to your reverse domain")

/-- Success-branch prints of main (source lines 465-471). -/
def nextStepEvents : List Event := [
  Event.print "✅ All source files present.",
  Event.print "\n🚀 Next steps:",
  Event.print "   1. open EMCopilot.xcodeproj",
  Event.print "   2. Select your team in Signing & Capabilities",
  Event.print "   3. Set your API key in Settings and build!",
  Event.print "",
  Event.print bundleIdLine]

/-- Final branch of main (source lines 462-471): warning when the missing
list is nonempty, next-step guidance otherwise. -/
def branchEvents (missing : List String) : List Event :=
  if missing = [] then nextStepEvents else [Event.print (warnLine missing.length)]

/-- Models main() (source lines 435-471) as its ordered event trace. The
filesystem is abstracted as the existence predicate fs consulted by
os.path.exists; writes and prints are recorded as events. -/
def mainEvents (env : IdEnv) (m : Manifest) (fs : String → Bool) : List Event :=
  [Event.print "🔨 Generating EM Copilot Xcode project…\n",
   Event.mkdirp proj_dir,
   Event.write proj_path (pbxproj env m),
   Event.print ("  ✓ Created " ++ proj_path)] ++
  createAssetCatalogEvents ++
  [Event.print "\n📋 Checking source files…"] ++
  m.sources.map (fun p => Event.print (checkLine fs p)) ++
  [Event.print ""] ++
  branchEvents (missingOf m fs)

/-- Write events of a trace, in order, as path-content pairs. -/
def writesOf (evs : List Event) : List (String × String) :=
  evs.filterMap (fun e => match e with
    | Event.write p c => some (p, c)
    | _ => none)

/-- The ten begin-of-section marker lines, in the emission order of
pbxproj (source lines 128-370). -/
def beginMarkers : List String := [
  sectionHead "PBXBuildFile",
  sectionHead "PBXFileReference",
  sectionHead "PBXFrameworksBuildPhase",
  sectionHead "PBXGroup",
  sectionHead "PBXNativeTarget",
  sectionHead "PBXProject",
  sectionHead "PBXResourcesBuildPhase",
  sectionHead "PBXSourcesBuildPhase",
  sectionHead "XCBuildConfiguration",
  sectionHead "XCConfigurationList"]

/-- The ten end-of-section marker lines, in emission order. -/
def endMarkers : List String := [
  sectionEnd "PBXBuildFile",
  sectionEnd "PBXFileReference",
  sectionEnd "PBXFrameworksBuildPhase",
  sectionEnd "PBXGroup",
  sectionEnd "PBXNativeTarget",
  sectionEnd "PBXProject",
  sectionEnd "PBXResourcesBuildPhase",
  sectionEnd "PBXSourcesBuildPhase",
  sectionEnd "XCBuildConfiguration",
  sectionEnd "XCConfigurationList"]

theorem length_hexDigits (w : Nat) : ∀ n, (hexDigits w n).length = w := by
  induction w with
  | zero => intro n; rfl
  | succ w ih =>
      intro n
      simp [hexDigits, ih]

theorem mem_hexDigits (w : Nat) : ∀ n c, c ∈ hexDigits w n → ∃ d, d < 16 ∧ c = hexChar d := by
  induction w with
  | zero => intro n c hc; simp [hexDigits] at hc
  | succ w ih =>
      intro n c hc
      simp only [hexDigits, List.mem_append, List.mem_singleton] at hc
      rcases hc with hc | rfl
      · exact ih (n / 16) c hc
      · exact ⟨n % 16, Nat.mod_lt n (by omega), rfl⟩

set_option maxHeartbeats 1000000 in
theorem upperHex_of_hexChar : ∀ d, d < 16 → isUpperHex ((hexChar d).toUpper) = true := by decide

/-- Claim C8: every identifier produced by make_uuid is a 24-character
string of uppercase hexadecimal characters, whatever the underlying random
value is. -/
theorem make_uuid_fixed_width_upper_hex :
    ∀ n : Nat, (make_uuid n).length = 24 ∧ (make_uuid n).data.all isUpperHex = true := by
  intro n
  constructor
  · simp only [make_uuid, String.length_mk]
    rw [List.length_map, List.length_take, length_hexDigits]
    omega
  · simp only [make_uuid]
    rw [List.all_eq_true]
    intro c hc
    rcases List.mem_map.mp hc with ⟨c0, hc0, rfl⟩
    have hmem : c0 ∈ hexDigits 32 n := List.mem_of_mem_take hc0
    rcases mem_hexDigits 32 n c0 hmem with ⟨d, hd, rfl⟩
    exact upperHex_of_hexChar d hd

theorem mem_dedupAux (l : List String) : ∀ (seen : List String) (x : String),
    x ∈ dedupAux l seen ↔ x ∈ l ∧ x ∉ seen := by
  induction l with
  | nil => intro seen x; simp [dedupAux]
  | cons a t ih =>
      intro seen x
      by_cases ha : a ∈ seen
      · rw [show dedupAux (a :: t) seen = dedupAux t seen by simp [dedupAux, ha], ih]
        simp only [List.mem_cons]
        constructor
        · rintro ⟨hx, hns⟩
          exact ⟨Or.inr hx, hns⟩
        · rintro ⟨hx | hx, hns⟩
          · subst hx; exact absurd ha hns
          · exact ⟨hx, hns⟩
      · rw [show dedupAux (a :: t) seen = a :: dedupAux t (a :: seen) by simp [dedupAux, ha]]
        simp only [List.mem_cons, ih]
        constructor
        · rintro (rfl | ⟨hx, hns⟩)
          · exact ⟨Or.inl rfl, ha⟩
          · simp only [List.mem_cons, not_or] at hns
            exact ⟨Or.inr hx, hns.2⟩
        · rintro ⟨rfl | hx, hns⟩
          · exact Or.inl rfl
          · by_cases hxa : x = a
            · exact Or.inl hxa
            · refine Or.inr ⟨hx, ?_⟩
              simp only [List.mem_cons, not_or]
              exact ⟨hxa, hns⟩

theorem mem_dedupF (l : List String) (x : String) : x ∈ dedupF l ↔ x ∈ l := by
  rw [dedupF, mem_dedupAux]
  simp

theorem mem_dictKeys (m : Manifest) (p : String) :
    p ∈ dictKeys m ↔ p ∈ m.sources ++ m.resources := by
  rw [dictKeys, mem_dedupF]

theorem writesOf_mainEvents (env : IdEnv) (m : Manifest) (fs : String → Bool) :
    writesOf (mainEvents env m fs) =
      [(proj_path, pbxproj env m),
       (assetsBase ++ "/Contents.json", rootContentsJson),
       (assetsBase ++ "/AppIcon.appiconset/Contents.json", appIconContentsJson),
       (assetsBase ++ "/AccentColor.colorset/Contents.json", accentColorContentsJson)] := by
  rw [mainEvents, writesOf]
  simp only [List.filterMap_append, List.filterMap_cons, List.filterMap_nil, List.filterMap_map]
  have hchk : (m.sources.filterMap (fun p =>
      (fun e => match e with
        | Event.write p c => some (p, c)
        | _ => none) (Event.print (checkLine fs p)))) = ([] : List (String × String)) := by
    simp
  rw [createAssetCatalogEvents, branchEvents]
  by_cases hm : missingOf m fs = []
  · rw [if_pos hm]
    simp [nextStepEvents, hchk]
  · rw [if_neg hm]
    simp [hchk]

/-- Claim C4: with the manifest and identifier assignment fixed, the
descriptor text main() writes is the same whatever the filesystem state is,
and repeated renders write byte-identical content: the renderer is a pure
function of manifest, identifiers and settings. -/
theorem pbxproj_render_deterministic :
    ∀ (env : IdEnv) (m : Manifest) (fs fs' : String → Bool),
      writesOf (mainEvents env m fs) = writesOf (mainEvents env m fs') ∧
      (proj_path, pbxproj env m) ∈ writesOf (mainEvents env m fs) := by
  intro env m fs fs'
  rw [writesOf_mainEvents, writesOf_mainEvents]
  exact ⟨rfl, List.mem_cons_self _ _⟩

/-- Concrete identifier assignment used by counterexamples and witnesses:
all identifiers pairwise distinct on the manifests involved. -/
def envCex : IdEnv := {
  PROJECT_UUID := "P0", MAIN_GROUP_UUID := "G0", PRODUCTS_GROUP_UUID := "G1",
  TARGET_UUID := "T0", PRODUCT_REF_UUID := "R0",
  SOURCES_PHASE_UUID := "H0", RESOURCES_PHASE_UUID := "H1", FRAMEWORKS_PHASE_UUID := "H2",
  DEBUG_CONFIG_UUID := "C0", RELEASE_CONFIG_UUID := "C1",
  TARGET_DEBUG_CFG_UUID := "C2", TARGET_RELEASE_CFG_UUID := "C3",
  PROJECT_CFGLIST_UUID := "L0", TARGET_CFGLIST_UUID := "L1",
  SWIFTDATA_FW_REF_UUID := "F0", SWIFTDATA_BUILD_UUID := "F1",
  file_refs := fun p => "FR:" ++ p,
  build_files := fun p => "BF:" ++ p }

/-- Filesystem on which no path exists. -/
def fsNone : String → Bool := fun _ => false

/-- Manifest with a duplicate source path. -/
def mDup : Manifest := ⟨["EMCopilot/App/A.swift", "EMCopilot/App/A.swift"], []⟩

/-- Claim C5 counterexample: on a manifest with a duplicate path the
generator does not fail before writing — it writes the descriptor as
usual (no ManifestError exists anywhere in the code). -/
theorem manifest_validation_cex :
    ¬ mDup.sources.Nodup ∧
    (proj_path, pbxproj envCex mDup) ∈ writesOf (mainEvents envCex mDup fsNone) := by
  constructor
  · decide
  · rw [writesOf_mainEvents]
    exact List.mem_cons_self _ _

/-- Claim C5 amended: the generator performs no manifest validation at all;
for every manifest — including ones with empty, duplicate or out-of-root
paths — the run unconditionally performs exactly its four file writes,
descriptor first, and raises no error. -/
theorem no_validation_always_writes :
    ∀ (env : IdEnv) (m : Manifest) (fs : String → Bool),
      writesOf (mainEvents env m fs) =
        [(proj_path, pbxproj env m),
         (assetsBase ++ "/Contents.json", rootContentsJson),
         (assetsBase ++ "/AppIcon.appiconset/Contents.json", appIconContentsJson),
         (assetsBase ++ "/AccentColor.colorset/Contents.json", accentColorContentsJson)] := by
  intro env m fs
  exact writesOf_mainEvents env m fs

/-- Manifest whose resource entry is an assets catalog other than the
hard-coded one. -/
def mCexRes : Manifest := ⟨[], ["EMCopilot/Resources/Other.xcassets"]⟩

/-- Claim C2 counterexample: for a manifest whose resource entry is not the
hard-coded assets path, the resources build phase does not list the
build-membership identifiers of the resource-kind entries — it is empty. -/
theorem phase_files_cex :
    ¬ (sourcesPhaseFiles envCex mCexRes = mCexRes.sources.map envCex.build_files ∧
       resourcesPhaseFiles envCex mCexRes = mCexRes.resources.map envCex.build_files) := by
  intro h
  have h2 := h.2
  rw [show resourcesPhaseFiles envCex mCexRes = [] by decide] at h2
  exact absurd h2 (by decide)

/-- Claim C2 amended: the sources build phase lists exactly the
build-membership identifiers of the source-kind entries in manifest order;
the resources phase lists exactly those of the resource-kind entries only
when the resource list is exactly the hard-coded assets-catalog path (the
phase consults only that fixed path, not the resource list). -/
theorem phase_files_amended (env : IdEnv) (m : Manifest)
    (hres : m.resources = [ASSETS_XCASSETS]) :
    sourcesPhaseFiles env m = m.sources.map env.build_files ∧
    resourcesPhaseFiles env m = m.resources.map env.build_files := by
  constructor
  · rfl
  · have hmem : ASSETS_XCASSETS ∈ dictKeys m := by
      rw [mem_dictKeys, List.mem_append, hres]
      exact Or.inr (List.mem_singleton.mpr rfl)
    rw [resourcesPhaseFiles, if_pos hmem, hres]
    rfl

/-- Manifest used by witnesses: two sources and the standard resource. -/
def mWit : Manifest := ⟨["EMCopilot/App/A.swift", "EMCopilot/App/B.swift"], [ASSETS_XCASSETS]⟩

/-- Witness for the amended claim C2 at a concrete manifest. -/
theorem phase_files_amended_witness :
    mWit.resources = [ASSETS_XCASSETS] ∧
    (sourcesPhaseFiles envCex mWit = mWit.sources.map envCex.build_files ∧
     resourcesPhaseFiles envCex mWit = mWit.resources.map envCex.build_files) :=
  ⟨rfl, phase_files_amended envCex mWit rfl⟩

/-- Claim C6 amended: the verification step checks existence for every
source-kind path, emitting a per-path pass or fail line for each regardless
of earlier failures, and the final branch report comes only after all
per-path check events. Resource-kind entries are not checked. -/
theorem main_checks_all_sources :
    ∀ (env : IdEnv) (m : Manifest) (fs : String → Bool),
      (∀ p ∈ m.sources, Event.print (checkLine fs p) ∈ mainEvents env m fs) ∧
      (∃ pre, mainEvents env m fs = pre ++ branchEvents (missingOf m fs) ∧
        ∀ p ∈ m.sources, Event.print (checkLine fs p) ∈ pre) := by
  intro env m fs
  have key : ∃ pre, mainEvents env m fs = pre ++ branchEvents (missingOf m fs) ∧
      ∀ p ∈ m.sources, Event.print (checkLine fs p) ∈ pre := by
    refine ⟨[Event.print "🔨 Generating EM Copilot Xcode project…\n",
      Event.mkdirp proj_dir,
      Event.write proj_path (pbxproj env m),
      Event.print ("  ✓ Created " ++ proj_path)] ++
      createAssetCatalogEvents ++
      [Event.print "\n📋 Checking source files…"] ++
      m.sources.map (fun p => Event.print (checkLine fs p)) ++
      [Event.print ""], rfl, ?_⟩
    intro p hp
    have hmem : Event.print (checkLine fs p) ∈
        m.sources.map (fun q => Event.print (checkLine fs q)) :=
      List.mem_map_of_mem _ hp
    simp only [List.mem_append]
    exact Or.inl (Or.inr hmem)
  refine ⟨?_, key⟩
  rcases key with ⟨pre, heq, hmem⟩
  intro p hp
  rw [heq]
  exact List.mem_append_left _ (hmem p hp)

/-- Manifest with only the standard resource entry and no sources. -/
def mResOnly : Manifest := ⟨[], [ASSETS_XCASSETS]⟩

/-- Claim C6 counterexample: the verification loop iterates only
SOURCE_FILES, so a resource-kind manifest entry gets neither a pass line
nor a fail line — not every path in the manifest is checked. -/
theorem main_checks_cex :
    ASSETS_XCASSETS ∈ mResOnly.resources ∧
    Event.print ("  ✓ " ++ ASSETS_XCASSETS) ∉ mainEvents envCex mResOnly fsNone ∧
    Event.print ("  ✗ MISSING: " ++ ASSETS_XCASSETS) ∉ mainEvents envCex mResOnly fsNone := by
  refine ⟨by decide, by decide, by decide⟩

/-- Witness for the amended claim C6: on a concrete manifest with one
missing and one present source, both per-path lines are emitted. -/
def fsB : String → Bool := fun s => s == "EMCopilot/App/B.swift"

theorem main_checks_all_sources_witness :
    Event.print (checkLine fsB "EMCopilot/App/A.swift") ∈ mainEvents envCex mWit fsB ∧
    Event.print (checkLine fsB "EMCopilot/App/B.swift") ∈ mainEvents envCex mWit fsB :=
  ⟨(main_checks_all_sources envCex mWit fsB).1 _ (by decide),
   (main_checks_all_sources envCex mWit fsB).1 _ (by decide)⟩

/-- Claim C7 amended: for a source-kind .swift path absent from disk the
run still writes the descriptor, the descriptor still carries the file
reference for that path, the per-path report marks it missing, and the run
reaches its final warning summary. Resource-kind entries are never marked
missing. -/
theorem missing_source_nonfatal (env : IdEnv) (m : Manifest) (fs : String → Bool)
    (p : String) (hp : p ∈ m.sources) (hmiss : fs p = false)
    (hsw : endswith p ".swift" = true) :
    Event.write proj_path (pbxproj env m) ∈ mainEvents env m fs ∧
    swiftFileRefLine env p ∈ pbxprojLines env m ∧
    Event.print ("  ✗ MISSING: " ++ p) ∈ mainEvents env m fs ∧
    Event.print (warnLine (missingOf m fs).length) ∈ mainEvents env m fs := by
  have hbranch : branchEvents (missingOf m fs) = [Event.print (warnLine (missingOf m fs).length)] := by
    have hne : missingOf m fs ≠ [] := by
      have : p ∈ missingOf m fs := by
        rw [missingOf]
        exact List.mem_filter.mpr ⟨hp, by simp [hmiss]⟩
      exact List.ne_nil_of_mem this
    rw [branchEvents, if_neg hne]
  refine ⟨?_, ?_, ?_, ?_⟩
  · simp [mainEvents]
  · have hkey : p ∈ dictKeys m := (mem_dictKeys m p).mpr (List.mem_append.mpr (Or.inl hp))
    have hline : swiftFileRefLine env p ∈ (dictKeys m).filterMap (fileRefLineOpt env) :=
      List.mem_filterMap.mpr ⟨p, hkey, by simp [fileRefLineOpt, hsw]⟩
    have hsec : swiftFileRefLine env p ∈ fileRefSectionLines env m := by
      rw [fileRefSectionLines]
      exact List.mem_cons_of_mem _ (List.mem_append_left _ hline)
    rw [pbxprojLines]
    simp only [List.mem_append]
    tauto
  · have hmem : Event.print ("  ✗ MISSING: " ++ p) ∈
        m.sources.map (fun q => Event.print (checkLine fs q)) := by
      refine List.mem_map.mpr ⟨p, hp, ?_⟩
      simp [checkLine, hmiss]
    rw [mainEvents]
    simp only [List.mem_append]
    tauto
  · rw [mainEvents, hbranch]
    simp only [List.mem_append, List.mem_singleton]
    tauto

/-- Witness for the amended claim C7 at a concrete manifest and filesystem. -/
theorem missing_source_nonfatal_witness :
    Event.write proj_path (pbxproj envCex mWit) ∈ mainEvents envCex mWit fsB ∧
    swiftFileRefLine envCex "EMCopilot/App/A.swift" ∈ pbxprojLines envCex mWit ∧
    Event.print ("  ✗ MISSING: " ++ "EMCopilot/App/A.swift") ∈ mainEvents envCex mWit fsB ∧
    Event.print (warnLine (missingOf mWit fsB).length) ∈ mainEvents envCex mWit fsB :=
  missing_source_nonfatal envCex mWit fsB "EMCopilot/App/A.swift" (by decide) (by decide) (by decide)

/-- Claim C7 counterexample: a resource-kind manifest path absent from
disk is not marked missing — the run takes the all-present success branch
instead of reporting it. -/
theorem missing_resource_unreported_cex :
    ASSETS_XCASSETS ∈ mResOnly.resources ∧
    fsNone ASSETS_XCASSETS = false ∧
    Event.print ("  ✗ MISSING: " ++ ASSETS_XCASSETS) ∉ mainEvents envCex mResOnly fsNone ∧
    Event.print bundleIdLine ∈ mainEvents envCex mResOnly fsNone := by
  refine ⟨by decide, rfl, by decide, by decide⟩

theorem ne_of_nth (i : Nat) (a b : String) (c₁ c₂ : Char)
    (h₁ : (a.data.drop i).head? = some c₁) (h₂ : (b.data.drop i).head? = some c₂)
    (hne : c₁ ≠ c₂) : a ≠ b := by
  intro e
  subst e
  rw [h₁] at h₂
  exact hne (Option.some.inj h₂)

theorem ne_empty_of_head (a : String) (c : Char) (h : a.data.head? = some c) : a ≠ "" := by
  intro e
  rw [e] at h
  exact Option.noConfusion h

theorem warn_head (n : Nat) : (warnLine n).data.head? = some '⚠' := by
  rw [warnLine, String.data_append]
  rfl

theorem check_ne_bundle (fs : String → Bool) : ∀ p, checkLine fs p ≠ bundleIdLine := by
  intro p
  rw [checkLine]
  by_cases hf : fs p
  · rw [if_pos hf]
    exact ne_of_nth 2 _ _ '✓' ' ' (by rw [String.data_append]; rfl) (by decide) (by decide)
  · rw [if_neg hf]
    exact ne_of_nth 2 _ _ '✗' ' ' (by rw [String.data_append]; rfl) (by decide) (by decide)

theorem check_ne_warn (fs : String → Bool) : ∀ p (n : Nat), checkLine fs p ≠ warnLine n := by
  intro p n
  rw [checkLine]
  by_cases hf : fs p
  · rw [if_pos hf]
    exact ne_of_nth 0 _ _ ' ' '⚠' (by rw [String.data_append]; rfl) (warn_head n) (by decide)
  · rw [if_neg hf]
    exact ne_of_nth 0 _ _ ' ' '⚠' (by rw [String.data_append]; rfl) (warn_head n) (by decide)

/-- Claim C10: main() prints the next-step guidance (with the configured
bundle identifier) exactly when no source file is missing; otherwise it
prints a single warning line carrying the missing count; in both cases the
descriptor and the three asset-catalog files are written before the branch
is taken. -/
theorem main_branch_report :
    ∀ (env : IdEnv) (m : Manifest) (fs : String → Bool),
      (Event.print bundleIdLine ∈ mainEvents env m fs ↔ missingOf m fs = []) ∧
      (missingOf m fs ≠ [] →
        (mainEvents env m fs).count (Event.print (warnLine (missingOf m fs).length)) = 1) ∧
      (∃ pre, mainEvents env m fs = pre ++ branchEvents (missingOf m fs) ∧
        Event.write proj_path (pbxproj env m) ∈ pre ∧
        Event.write (assetsBase ++ "/Contents.json") rootContentsJson ∈ pre ∧
        Event.write (assetsBase ++ "/AppIcon.appiconset/Contents.json") appIconContentsJson ∈ pre ∧
        Event.write (assetsBase ++ "/AccentColor.colorset/Contents.json") accentColorContentsJson ∈ pre) := by
  intro env m fs
  have hb1 : bundleIdLine ≠ "🔨 Generating EM Copilot Xcode project…\n" := by decide
  have hb2 : bundleIdLine ≠ ("  ✓ Created " ++ proj_path) := by decide
  have hb3 : bundleIdLine ≠ ("  ✓ Created " ++ assetsBase) := by decide
  have hb4 : bundleIdLine ≠ "\n📋 Checking source files…" := by decide
  have hb5 : bundleIdLine ≠ "" := by decide
  have hbw : ∀ n : Nat, bundleIdLine ≠ warnLine n := by
    intro n
    exact ne_of_nth 0 _ _ ' ' '⚠' (by decide) (warn_head n) (by decide)
  have hcb : ∀ p, ¬ (checkLine fs p = bundleIdLine) := check_ne_bundle fs
  have hw1 : ∀ n : Nat, warnLine n ≠ "🔨 Generating EM Copilot Xcode project…\n" := by
    intro n
    exact ne_of_nth 0 _ _ '⚠' '🔨' (warn_head n) (by decide) (by decide)
  have hw2 : ∀ n : Nat, warnLine n ≠ ("  ✓ Created " ++ proj_path) := by
    intro n
    exact ne_of_nth 0 _ _ '⚠' ' ' (warn_head n) (by decide) (by decide)
  have hw3 : ∀ n : Nat, warnLine n ≠ ("  ✓ Created " ++ assetsBase) := by
    intro n
    exact ne_of_nth 0 _ _ '⚠' ' ' (warn_head n) (by decide) (by decide)
  have hw4 : ∀ n : Nat, warnLine n ≠ "\n📋 Checking source files…" := by
    intro n
    exact ne_of_nth 0 _ _ '⚠' '\n' (warn_head n) (by decide) (by decide)
  have hw5 : ∀ n : Nat, warnLine n ≠ "" := fun n => ne_empty_of_head _ '⚠' (warn_head n)
  have hcw : ∀ p (n : Nat), ¬ (checkLine fs p = warnLine n) := check_ne_warn fs
  refine ⟨⟨?_, ?_⟩, ?_, ?_⟩
  · intro hmem
    by_contra hne
    rw [mainEvents, branchEvents, if_neg hne] at hmem
    simp only [createAssetCatalogEvents, List.mem_append, List.mem_cons, List.mem_map,
      List.mem_singleton, List.not_mem_nil, or_false, Event.print.injEq, reduceCtorEq,
      false_or, and_false, exists_false, hb1, hb2, hb3, hb4, hb5, hbw, hcb] at hmem
  · intro hempty
    rw [mainEvents, branchEvents, if_pos hempty]
    simp [nextStepEvents]
  · intro hne
    rw [mainEvents, branchEvents, if_neg hne]
    rw [List.count_append]
    have hzero : (([Event.print "🔨 Generating EM Copilot Xcode project…\n",
        Event.mkdirp proj_dir,
        Event.write proj_path (pbxproj env m),
        Event.print ("  ✓ Created " ++ proj_path)] ++
        createAssetCatalogEvents ++
        [Event.print "\n📋 Checking source files…"] ++
        m.sources.map (fun p => Event.print (checkLine fs p)) ++
        [Event.print ""]).count
          (Event.print (warnLine (missingOf m fs).length))) = 0 := by
      rw [List.count_eq_zero]
      intro hmem
      simp only [createAssetCatalogEvents, List.mem_append, List.mem_cons, List.mem_map,
        List.mem_singleton, List.not_mem_nil, or_false, Event.print.injEq, reduceCtorEq,
        false_or, and_false, exists_false, hw1, hw2, hw3, hw4, hw5, hcw] at hmem
    rw [hzero]
    simp
  · refine ⟨[Event.print "🔨 Generating EM Copilot Xcode project…\n",
      Event.mkdirp proj_dir,
      Event.write proj_path (pbxproj env m),
      Event.print ("  ✓ Created " ++ proj_path)] ++
      createAssetCatalogEvents ++
      [Event.print "\n📋 Checking source files…"] ++
      m.sources.map (fun p => Event.print (checkLine fs p)) ++
      [Event.print ""], rfl, ?_, ?_, ?_, ?_⟩ <;>
    · simp [createAssetCatalogEvents]

/-- Witness for claim C10 at a concrete manifest with one missing source:
the warning count is exactly one. -/
theorem main_branch_report_witness :
    (mainEvents envCex mWit fsB).count
      (Event.print (warnLine (missingOf mWit fsB).length)) = 1 :=
  (main_branch_report envCex mWit fsB).2.1 (by decide)

theorem count_structIds (env : IdEnv) (a : String) :
    (structIds env).count a =
      (defsObjTail env).count a + ([env.SWIFTDATA_BUILD_UUID].count a) := by
  simp only [structIds, defsObjTail, List.count_cons, List.count_singleton, List.count_nil]
  omega

theorem count_defs_eq (env : IdEnv) (m : Manifest)
    (hrec : ∀ p ∈ dictKeys m, recognized p = true) (a : String) :
    (pbxprojDefs env m).count a = (allIds env m).count a := by
  have hfil : (dictKeys m).filter recognized = dictKeys m :=
    List.filter_eq_self.mpr hrec
  rw [pbxprojDefs, allIds, hfil]
  simp only [List.count_append]
  rw [count_structIds]
  omega

theorem nodup_defs (env : IdEnv) (m : Manifest)
    (hids : (allIds env m).Nodup)
    (hrec : ∀ p ∈ dictKeys m, recognized p = true) :
    (pbxprojDefs env m).Nodup := by
  rw [List.nodup_iff_count_le_one] at hids ⊢
  intro a
  rw [count_defs_eq env m hrec a]
  exact hids a

set_option maxHeartbeats 2000000 in
theorem refs_subset_defs (env : IdEnv) (m : Manifest)
    (hrec : ∀ p ∈ dictKeys m, recognized p = true) :
    ∀ x ∈ pbxprojRefs env m, x ∈ pbxprojDefs env m := by
  have hfil : (dictKeys m).filter recognized = dictKeys m :=
    List.filter_eq_self.mpr hrec
  intro x hx
  rw [pbxprojDefs, hfil]
  rw [pbxprojRefs] at hx
  have hsrc : x ∈ m.sources.map env.build_files → x ∈ (dictKeys m).map env.build_files := by
    intro hy
    rcases List.mem_map.mp hy with ⟨p, hp, rfl⟩
    exact List.mem_map_of_mem _ ((mem_dictKeys m p).mpr (List.mem_append.mpr (Or.inl hp)))
  by_cases hA : ASSETS_XCASSETS ∈ dictKeys m
  · have hAb : x = env.build_files ASSETS_XCASSETS → x ∈ (dictKeys m).map env.build_files := by
      intro h
      rw [h]
      exact List.mem_map_of_mem _ hA
    rw [if_pos hA] at hx
    simp only [defsObjTail, List.mem_append, List.mem_cons, List.mem_singleton,
      List.not_mem_nil, or_false] at hx ⊢
    tauto
  · rw [if_neg hA] at hx
    simp only [defsObjTail, List.mem_append, List.mem_cons, List.mem_singleton,
      List.not_mem_nil, or_false] at hx ⊢
    tauto

/-- Claim C1 amended: for every manifest whose entries all have a
recognized extension (.swift or .xcassets) and whose identifier allocation
is collision-free, every identifier referenced in the descriptor is defined
exactly once among its objects. -/
theorem pbxproj_referential_closure (env : IdEnv) (m : Manifest)
    (hids : (allIds env m).Nodup)
    (hrec : ∀ p ∈ m.sources ++ m.resources, recognized p = true) :
    ∀ x ∈ pbxprojRefs env m, (pbxprojDefs env m).count x = 1 := by
  have hrec' : ∀ p ∈ dictKeys m, recognized p = true := fun p hp =>
    hrec p ((mem_dictKeys m p).mp hp)
  intro x hx
  exact List.count_eq_one_of_mem (nodup_defs env m hids hrec')
    (refs_subset_defs env m hrec' x hx)

/-- Witness for the amended claim C1 at a concrete manifest and a concrete
collision-free identifier assignment. -/
theorem pbxproj_referential_closure_witness :
    (allIds envCex mWit).Nodup ∧
    ∀ x ∈ pbxprojRefs envCex mWit, (pbxprojDefs envCex mWit).count x = 1 :=
  ⟨by decide, pbxproj_referential_closure envCex mWit (by decide) (by decide)⟩

/-- Manifest holding one entry with an unrecognized extension. -/
def mCexExt : Manifest := ⟨["App/Widget.ext"], []⟩

/-- Claim C1 counterexample: for a manifest entry with an unrecognized
extension, the build-file object references its file-reference identifier,
yet no object defines that identifier — a dangling reference. -/
theorem pbxproj_refclosure_cex :
    envCex.file_refs "App/Widget.ext" ∈ pbxprojRefs envCex mCexExt ∧
    (pbxprojDefs envCex mCexExt).count (envCex.file_refs "App/Widget.ext") = 0 := by
  exact ⟨by decide, by decide⟩

/-- Claim C9 amended: for a manifest entry whose extension is neither
.swift nor .xcassets the generator neither rejects the manifest nor emits
an explicit unknown-type marker: the PBXFileReference loop emits no line
for the entry at all, while its file-reference identifier is still
referenced by the descriptor and defined nowhere in it. -/
theorem unrecognized_ext_dangling (env : IdEnv) (m : Manifest) (p : String)
    (hp : p ∈ m.sources ++ m.resources)
    (h1 : endswith p ".swift" = false) (h2 : endswith p ".xcassets" = false)
    (hids : (allIds env m).Nodup) :
    fileRefLineOpt env p = none ∧
    env.file_refs p ∈ pbxprojRefs env m ∧
    env.file_refs p ∉ pbxprojDefs env m := by
  have hkey : p ∈ dictKeys m := (mem_dictKeys m p).mpr hp
  have hxF : env.file_refs p ∈ (dictKeys m).map env.file_refs :=
    List.mem_map_of_mem _ hkey
  refine ⟨by simp [fileRefLineOpt, h1, h2], ?_, ?_⟩
  · rw [pbxprojRefs]
    simp only [List.mem_append]
    tauto
  · rw [allIds] at hids
    rw [List.nodup_append] at hids
    obtain ⟨hXY, hB, hdXYB⟩ := hids
    rw [List.nodup_append] at hXY
    obtain ⟨hX, hF, hdXF⟩ := hXY
    intro hxdefs
    rw [pbxprojDefs] at hxdefs
    simp only [List.mem_append, List.mem_cons, List.mem_singleton,
      List.not_mem_nil, or_false, or_assoc] at hxdefs
    have hXmem : env.file_refs p ∈ structIds env ++ (dictKeys m).map env.file_refs :=
      List.mem_append_right _ hxF
    rcases hxdefs with hc | hc | hc | hc
    · exact hdXYB hXmem hc
    · refine hdXF ?_ hxF
      rw [hc]
      simp [structIds]
    · rcases List.mem_map.mp hc with ⟨q, hq, hqe⟩
      have hqkey : q ∈ dictKeys m := List.mem_of_mem_filter hq
      have hqrec : recognized q = true := List.of_mem_filter hq
      have hqx : env.file_refs q = env.file_refs p := hqe
      have hqp : q = p :=
        List.inj_on_of_nodup_map hF (List.mem_filter.mp hq).1 hkey hqx
      rw [hqp, recognized, h1, h2] at hqrec
      exact Bool.noConfusion hqrec
    · have hcS : env.file_refs p ∈ structIds env := by
        simp only [defsObjTail, List.mem_cons, List.not_mem_nil, or_false] at hc
        simp only [structIds, List.mem_cons, List.not_mem_nil, or_false]
        tauto
      exact hdXF hcS hxF

/-- Witness for the amended claim C9 at a concrete manifest holding an
entry with an unrecognized extension. -/
theorem unrecognized_ext_dangling_witness :
    fileRefLineOpt envCex "App/Widget.ext" = none ∧
    envCex.file_refs "App/Widget.ext" ∈ pbxprojRefs envCex mCexExt ∧
    envCex.file_refs "App/Widget.ext" ∉ pbxprojDefs envCex mCexExt :=
  unrecognized_ext_dangling envCex mCexExt "App/Widget.ext"
    (by decide) (by decide) (by decide) (by decide)

/-- Claim C9 counterexample: on the manifest holding App/Widget.ext the
generator still writes a descriptor (no rejection), and the entry appears
in no PBXFileReference object (no unknown-type marker, the object is
simply absent), while the build-file section still references it. -/
theorem unrecognized_ext_cex :
    "App/Widget.ext" ∈ mCexExt.sources ∧
    (dictKeys mCexExt).filterMap (fileRefLineOpt envCex) = [] ∧
    (proj_path, pbxproj envCex mCexExt) ∈ writesOf (mainEvents envCex mCexExt fsNone) := by
  refine ⟨by decide, by decide, ?_⟩
  rw [writesOf_mainEvents]
  exact List.mem_cons_self _ _

theorem head_append_of_some (s t : String) (c : Char) (h : s.data.head? = some c) :
    (s ++ t).data.head? = some c := by
  rw [String.data_append]
  cases hs : s.data with
  | nil => rw [hs] at h; exact Option.noConfusion h
  | cons a r =>
      rw [hs] at h
      simpa using h

theorem sectionHead_head (name : String) : (sectionHead name).data.head? = some '\n' := by
  rw [sectionHead]
  exact head_append_of_some _ _ _ rfl

theorem sectionEnd_head (name : String) : (sectionEnd name).data.head? = some '/' := by
  rw [sectionEnd]
  exact head_append_of_some _ _ _ rfl

theorem beginMarkers_head : ∀ s ∈ beginMarkers, s.data.head? = some '\n' := by decide

theorem endMarkers_head : ∀ s ∈ endMarkers, s.data.head? = some '/' := by decide

theorem not_in_begin_of_head (l : String) (c : Char) (hc : l.data.head? = some c)
    (hne : c ≠ '\n') : l ∉ beginMarkers := by
  intro hmem
  have h := beginMarkers_head l hmem
  rw [hc] at h
  exact hne (Option.some.inj h)

theorem not_in_end_of_head (l : String) (c : Char) (hc : l.data.head? = some c)
    (hne : c ≠ '/') : l ∉ endMarkers := by
  intro hmem
  have h := endMarkers_head l hmem
  rw [hc] at h
  exact hne (Option.some.inj h)

theorem filter_begin_section (name : String) (body : List String)
    (hname : sectionHead name ∈ beginMarkers)
    (hbody : ∀ l ∈ body, l.data.head? = some '\t') :
    (sectionHead name :: (body ++ [sectionEnd name])).filter
      (fun l => decide (l ∈ beginMarkers)) = [sectionHead name] := by
  rw [List.filter_cons_of_pos (by simpa using hname)]
  have h1 : (body ++ [sectionEnd name]).filter (fun l => decide (l ∈ beginMarkers)) = [] := by
    rw [List.filter_eq_nil_iff]
    intro a ha
    simp only [decide_eq_true_eq]
    rcases List.mem_append.mp ha with ha | ha
    · exact not_in_begin_of_head a '\t' (hbody a ha) (by decide)
    · rw [List.mem_singleton.mp ha]
      exact not_in_begin_of_head _ '/' (sectionEnd_head name) (by decide)
  rw [h1]

theorem filter_end_section (name : String) (body : List String)
    (hname : sectionEnd name ∈ endMarkers)
    (hbody : ∀ l ∈ body, l.data.head? = some '\t') :
    (sectionHead name :: (body ++ [sectionEnd name])).filter
      (fun l => decide (l ∈ endMarkers)) = [sectionEnd name] := by
  rw [List.filter_cons_of_neg
    (by simp only [decide_eq_true_eq]
        exact not_in_end_of_head _ '\n' (sectionHead_head name) (by decide))]
  rw [List.filter_append]
  have h1 : body.filter (fun l => decide (l ∈ endMarkers)) = [] := by
    rw [List.filter_eq_nil_iff]
    intro a ha
    simp only [decide_eq_true_eq]
    exact not_in_end_of_head a '\t' (hbody a ha) (by decide)
  have h2 : ([sectionEnd name] : List String).filter (fun l => decide (l ∈ endMarkers)) =
      [sectionEnd name] := by
    simp [hname]
  rw [h1, h2]
  rfl

theorem buildFileLine_head (env : IdEnv) (p : String) :
    (buildFileLine env p).data.head? = some '\t' := by
  rw [buildFileLine]
  exact head_append_of_some _ _ _ rfl

theorem swiftdataBuildLine_head (env : IdEnv) :
    (swiftdataBuildLine env).data.head? = some '\t' := by
  rw [swiftdataBuildLine]
  exact head_append_of_some _ _ _ rfl

theorem swiftFileRefLine_head (env : IdEnv) (p : String) :
    (swiftFileRefLine env p).data.head? = some '\t' := by
  rw [swiftFileRefLine]
  exact head_append_of_some _ _ _ rfl

theorem xcassetsFileRefLine_head (env : IdEnv) (p : String) :
    (xcassetsFileRefLine env p).data.head? = some '\t' := by
  rw [xcassetsFileRefLine]
  exact head_append_of_some _ _ _ rfl

theorem fileRefOpt_head (env : IdEnv) (p : String) (l : String)
    (h : fileRefLineOpt env p = some l) : l.data.head? = some '\t' := by
  rw [fileRefLineOpt] at h
  by_cases h1 : endswith p ".swift"
  · rw [if_pos h1] at h
    rw [← Option.some.inj h]
    exact swiftFileRefLine_head env p
  · rw [if_neg h1] at h
    by_cases h2 : endswith p ".xcassets"
    · rw [if_pos h2] at h
      rw [← Option.some.inj h]
      exact xcassetsFileRefLine_head env p
    · rw [if_neg h2] at h
      exact Option.noConfusion h

theorem productRefLine_head (env : IdEnv) :
    (productRefLine env).data.head? = some '\t' := by
  rw [productRefLine]
  exact head_append_of_some _ _ _ rfl

theorem swiftdataRefLine_head (env : IdEnv) :
    (swiftdataRefLine env).data.head? = some '\t' := by
  rw [swiftdataRefLine]
  exact head_append_of_some _ _ _ rfl

theorem groupChildLine_head (env : IdEnv) (p : String) :
    (groupChildLine env p).data.head? = some '\t' := by
  rw [groupChildLine]
  exact head_append_of_some _ _ _ rfl

theorem sourcesPhaseLine_head (env : IdEnv) (p : String) :
    (sourcesPhaseLine env p).data.head? = some '\t' := by
  rw [sourcesPhaseLine]
  exact head_append_of_some _ _ _ rfl

theorem fw_eq (env : IdEnv) : frameworksSectionLines env =
    sectionHead "PBXFrameworksBuildPhase" ::
      (["\t\t" ++ (env.FRAMEWORKS_PHASE_UUID ++ " /* Frameworks */ = \x7b"),
       "\t\t\tisa = PBXFrameworksBuildPhase;",
       "\t\t\tbuildActionMask = 2147483647;",
       "\t\t\tfiles = (",
       "\t\t\t\t" ++ (env.SWIFTDATA_BUILD_UUID ++ " /* SwiftData.framework in Frameworks */,"),
       "\t\t\t);",
       "\t\t\trunOnlyForDeploymentPostprocessing = 0;",
       "\t\t\x7d;"] ++ [sectionEnd "PBXFrameworksBuildPhase"]) := rfl

theorem fw_body_head (env : IdEnv) :
    ∀ l ∈ ["\t\t" ++ (env.FRAMEWORKS_PHASE_UUID ++ " /* Frameworks */ = \x7b"),
       "\t\t\tisa = PBXFrameworksBuildPhase;",
       "\t\t\tbuildActionMask = 2147483647;",
       "\t\t\tfiles = (",
       "\t\t\t\t" ++ (env.SWIFTDATA_BUILD_UUID ++ " /* SwiftData.framework in Frameworks */,"),
       "\t\t\t);",
       "\t\t\trunOnlyForDeploymentPostprocessing = 0;",
       "\t\t\x7d;"],
      l.data.head? = some '\t' := by
  intro l hl
  simp only [List.mem_cons, List.not_mem_nil, or_false] at hl
  rcases hl with rfl | rfl | rfl | rfl | rfl | rfl | rfl | rfl
  all_goals first | rfl | exact head_append_of_some _ _ _ rfl


theorem tg_eq (env : IdEnv) : targetSectionLines env =
    sectionHead "PBXNativeTarget" ::
      (["\t\t" ++ (env.TARGET_UUID ++ " /* " ++ APP_NAME ++ " */ = \x7b"),
       "\t\t\tisa = PBXNativeTarget;",
       "\t\t\tbuildConfigurationList = " ++ (env.TARGET_CFGLIST_UUID ++ " /* Build configuration list for PBXNativeTarget \"" ++ APP_NAME ++ "\" */;"),
       "\t\t\tbuildPhases = (",
       "\t\t\t\t" ++ (env.SOURCES_PHASE_UUID ++ " /* Sources */,"),
       "\t\t\t\t" ++ (env.RESOURCES_PHASE_UUID ++ " /* Resources */,"),
       "\t\t\t\t" ++ (env.FRAMEWORKS_PHASE_UUID ++ " /* Frameworks */,"),
       "\t\t\t);",
       "\t\t\tbuildRules = (",
       "\t\t\t);",
       "\t\t\tdependencies = (",
       "\t\t\t);",
       "\t\t\tname = " ++ (APP_NAME ++ ";"),
       "\t\t\tpackageProductDependencies = (",
       "\t\t\t);",
       "\t\t\tproductName = " ++ (APP_NAME ++ ";"),
       "\t\t\tproductReference = " ++ (env.PRODUCT_REF_UUID ++ " /* " ++ APP_NAME ++ ".app */;"),
       "\t\t\tproductType = \"com.apple.product-type.application\";",
       "\t\t\x7d;"] ++ [sectionEnd "PBXNativeTarget"]) := rfl

theorem tg_body_head (env : IdEnv) :
    ∀ l ∈ ["\t\t" ++ (env.TARGET_UUID ++ " /* " ++ APP_NAME ++ " */ = \x7b"),
       "\t\t\tisa = PBXNativeTarget;",
       "\t\t\tbuildConfigurationList = " ++ (env.TARGET_CFGLIST_UUID ++ " /* Build configuration list for PBXNativeTarget \"" ++ APP_NAME ++ "\" */;"),
       "\t\t\tbuildPhases = (",
       "\t\t\t\t" ++ (env.SOURCES_PHASE_UUID ++ " /* Sources */,"),
       "\t\t\t\t" ++ (env.RESOURCES_PHASE_UUID ++ " /* Resources */,"),
       "\t\t\t\t" ++ (env.FRAMEWORKS_PHASE_UUID ++ " /* Frameworks */,"),
       "\t\t\t);",
       "\t\t\tbuildRules = (",
       "\t\t\t);",
       "\t\t\tdependencies = (",
       "\t\t\t);",
       "\t\t\tname = " ++ (APP_NAME ++ ";"),
       "\t\t\tpackageProductDependencies = (",
       "\t\t\t);",
       "\t\t\tproductName = " ++ (APP_NAME ++ ";"),
       "\t\t\tproductReference = " ++ (env.PRODUCT_REF_UUID ++ " /* " ++ APP_NAME ++ ".app */;"),
       "\t\t\tproductType = \"com.apple.product-type.application\";",
       "\t\t\x7d;"],
      l.data.head? = some '\t' := by
  intro l hl
  simp only [List.mem_cons, List.not_mem_nil, or_false] at hl
  rcases hl with rfl | rfl | rfl | rfl | rfl | rfl | rfl | rfl | rfl | rfl | rfl | rfl | rfl | rfl | rfl | rfl | rfl | rfl | rfl
  all_goals first | rfl | exact head_append_of_some _ _ _ rfl


theorem pj_eq (env : IdEnv) : projectSectionLines env =
    sectionHead "PBXProject" ::
      (["\t\t" ++ (env.PROJECT_UUID ++ " /* Project object */ = \x7b"),
       "\t\t\tisa = PBXProject;",
       "\t\t\tattributes = \x7b",
       "\t\t\t\tBuildIndependentTargetsInParallel = 1;",
       "\t\t\t\tLastSwiftUpdateCheck = 1500;",
       "\t\t\t\tLastUpgradeCheck = 1500;",
       "\t\t\t\tTargetAttributes = \x7b",
       "\t\t\t\t\t" ++ (env.TARGET_UUID ++ " = \x7b"),
       "\t\t\t\t\t\tCreatedOnToolsVersion = 15.0;",
       "\t\t\t\t\t\x7d;",
       "\t\t\t\t\x7d;",
       "\t\t\t\x7d;",
       "\t\t\tbuildConfigurationList = " ++ (env.PROJECT_CFGLIST_UUID ++ " /* Build configuration list for PBXProject \"" ++ APP_NAME ++ "\" */;"),
       "\t\t\tcompatibilityVersion = \"Xcode 15.0\";",
       "\t\t\tdevelopmentRegion = en;",
       "\t\t\thasScannedForEncodings = 0;",
       "\t\t\tknownRegions = (",
       "\t\t\t\ten,",
       "\t\t\t\tBase,",
       "\t\t\t);",
       "\t\t\tmainGroup = " ++ (env.MAIN_GROUP_UUID ++ ";"),
       "\t\t\tproductRefGroup = " ++ (env.PRODUCTS_GROUP_UUID ++ " /* Products */;"),
       "\t\t\tprojectDirPath = \"\";",
       "\t\t\tprojectRoot = \"\";",
       "\t\t\ttargets = (",
       "\t\t\t\t" ++ (env.TARGET_UUID ++ " /* " ++ APP_NAME ++ " */,"),
       "\t\t\t);",
       "\t\t\x7d;"] ++ [sectionEnd "PBXProject"]) := rfl

theorem pj_body_head (env : IdEnv) :
    ∀ l ∈ ["\t\t" ++ (env.PROJECT_UUID ++ " /* Project object */ = \x7b"),
       "\t\t\tisa = PBXProject;",
       "\t\t\tattributes = \x7b",
       "\t\t\t\tBuildIndependentTargetsInParallel = 1;",
       "\t\t\t\tLastSwiftUpdateCheck = 1500;",
       "\t\t\t\tLastUpgradeCheck = 1500;",
       "\t\t\t\tTargetAttributes = \x7b",
       "\t\t\t\t\t" ++ (env.TARGET_UUID ++ " = \x7b"),
       "\t\t\t\t\t\tCreatedOnToolsVersion = 15.0;",
       "\t\t\t\t\t\x7d;",
       "\t\t\t\t\x7d;",
       "\t\t\t\x7d;",
       "\t\t\tbuildConfigurationList = " ++ (env.PROJECT_CFGLIST_UUID ++ " /* Build configuration list for PBXProject \"" ++ APP_NAME ++ "\" */;"),
       "\t\t\tcompatibilityVersion = \"Xcode 15.0\";",
       "\t\t\tdevelopmentRegion = en;",
       "\t\t\thasScannedForEncodings = 0;",
       "\t\t\tknownRegions = (",
       "\t\t\t\ten,",
       "\t\t\t\tBase,",
       "\t\t\t);",
       "\t\t\tmainGroup = " ++ (env.MAIN_GROUP_UUID ++ ";"),
       "\t\t\tproductRefGroup = " ++ (env.PRODUCTS_GROUP_UUID ++ " /* Products */;"),
       "\t\t\tprojectDirPath = \"\";",
       "\t\t\tprojectRoot = \"\";",
       "\t\t\ttargets = (",
       "\t\t\t\t" ++ (env.TARGET_UUID ++ " /* " ++ APP_NAME ++ " */,"),
       "\t\t\t);",
       "\t\t\x7d;"],
      l.data.head? = some '\t' := by
  intro l hl
  simp only [List.mem_cons, List.not_mem_nil, or_false] at hl
  rcases hl with rfl | rfl | rfl | rfl | rfl | rfl | rfl | rfl | rfl | rfl | rfl | rfl | rfl | rfl | rfl | rfl | rfl | rfl | rfl | rfl | rfl | rfl | rfl | rfl | rfl | rfl | rfl | rfl
  all_goals first | rfl | exact head_append_of_some _ _ _ rfl


theorem cf_eq (env : IdEnv) : configSectionLines env =
    sectionHead "XCBuildConfiguration" ::
      (["\t\t" ++ (env.DEBUG_CONFIG_UUID ++ " /* Debug */ = \x7b"),
       "\t\t\tisa = XCBuildConfiguration;",
       "\t\t\tbuildSettings = \x7b",
       "\t\t\t\tALWAYS_SEARCH_USER_PATHS = NO;",
       "\t\t\t\tCLANG_ENABLE_MODULES = YES;",
       "\t\t\t\tCOPY_PHASE_STRIP = NO;",
       "\t\t\t\tDEBUG_INFORMATION_FORMAT = dwarf;",
       "\t\t\t\tENABLE_STRICT_OBJC_MSGSEND = YES;",
       "\t\t\t\tENABLE_TESTABILITY = YES;",
       "\t\t\t\tGCC_C_LANGUAGE_STANDARD = gnu17;",
       "\t\t\t\tGCC_DYNAMIC_NO_PIC = NO;",
       "\t\t\t\tGCC_OPTIMIZATION_LEVEL = 0;",
       "\t\t\t\tGCC_PREPROCESSOR_DEFINITIONS = (\"DEBUG=1\", \"$(inherited)\");",
       "\t\t\t\tMTL_ENABLE_DEBUG_INFO = INCLUDE_SOURCE;",
       "\t\t\t\tMTL_FAST_MATH = YES;",
       "\t\t\t\tONLY_ACTIVE_ARCH = YES;",
       "\t\t\t\tSWIFT_ACTIVE_COMPILATION_CONDITIONS = DEBUG;",
       "\t\t\t\tSWIFT_OPTIMIZATION_LEVEL = \"-Onone\";",
       "\t\t\t\x7d;",
       "\t\t\tname = Debug;",
       "\t\t\x7d;",
       "\t\t" ++ (env.RELEASE_CONFIG_UUID ++ " /* Release */ = \x7b"),
       "\t\t\tisa = XCBuildConfiguration;",
       "\t\t\tbuildSettings = \x7b",
       "\t\t\t\tALWAYS_SEARCH_USER_PATHS = NO;",
       "\t\t\t\tCLANG_ENABLE_MODULES = YES;",
       "\t\t\t\tCOPY_PHASE_STRIP = NO;",
       "\t\t\t\tDEBUG_INFORMATION_FORMAT = \"dwarf-with-dsym\";",
       "\t\t\t\tENABLE_NS_ASSERTIONS = NO;",
       "\t\t\t\tENABLE_STRICT_OBJC_MSGSEND = YES;",
       "\t\t\t\tGCC_C_LANGUAGE_STANDARD = gnu17;",
       "\t\t\t\tMTL_ENABLE_DEBUG_INFO = NO;",
       "\t\t\t\tMTL_FAST_MATH = YES;",
       "\t\t\t\tSWIFT_COMPILATION_MODE = wholemodule;",
       "\t\t\t\tSWIFT_OPTIMIZATION_LEVEL = \"-O\";",
       "\t\t\t\x7d;",
       "\t\t\tname = Release;",
       "\t\t\x7d;",
       "\t\t" ++ (env.TARGET_DEBUG_CFG_UUID ++ " /* Debug */ = \x7b"),
       "\t\t\tisa = XCBuildConfiguration;",
       "\t\t\tbuildSettings = \x7b",
       "\t\t\t\tASSETCATALOG_COMPILER_APPICON_NAME = AppIcon;",
       "\t\t\t\tASSETCATALOG_COMPILER_GLOBAL_ACCENT_COLOR_NAME = AccentColor;",
       "\t\t\t\tCOMBINE_HIDPI_IMAGES = YES;",
       "\t\t\t\tCURRENT_PROJECT_VERSION = 1;",
       "\t\t\t\tGENERATE_INFOPLIST_FILE = YES;",
       "\t\t\t\tINFOPLIST_KEY_LSApplicationCategoryType = \"public.app-category.productivity\";",
       "\t\t\t\tINFOPLIST_KEY_NSHumanReadableCopyright = \"\";",
       "\t\t\t\tINFOPLIST_KEY_NSPrincipalClass = NSApplication;",
       "\t\t\t\tMARKETING_VERSION = 1.0;",
       "\t\t\t\tMACOS_DEPLOYMENT_TARGET = " ++ (MACOS_DEPLOY ++ ";"),
       "\t\t\t\tIPHONEOS_DEPLOYMENT_TARGET = " ++ (IOS_DEPLOY ++ ";"),
       "\t\t\t\tPRODUCT_BUNDLE_IDENTIFIER = \"" ++ (BUNDLE_ID_BASE ++ "\";"),
       "\t\t\t\tPRODUCT_NAME = \"$(TARGET_NAME)\";",
       "\t\t\t\tSDKROOT = auto;",
       "\t\t\t\tSUPPORTED_PLATFORMS = \"macosx iphoneos iphonesimulator\";",
       "\t\t\t\tSWIFT_EMIT_LOC_STRINGS = YES;",
       "\t\t\t\tSWIFT_VERSION = " ++ (SWIFT_VERSION ++ ";"),
       "\t\t\t\tTARGETED_DEVICE_FAMILY = \"1,2\";",
       "\t\t\t\x7d;",
       "\t\t\tname = Debug;",
       "\t\t\x7d;",
       "\t\t" ++ (env.TARGET_RELEASE_CFG_UUID ++ " /* Release */ = \x7b"),
       "\t\t\tisa = XCBuildConfiguration;",
       "\t\t\tbuildSettings = \x7b",
       "\t\t\t\tASSETCATALOG_COMPILER_APPICON_NAME = AppIcon;",
       "\t\t\t\tASSETCATALOG_COMPILER_GLOBAL_ACCENT_COLOR_NAME = AccentColor;",
       "\t\t\t\tCOMBINE_HIDPI_IMAGES = YES;",
       "\t\t\t\tCURRENT_PROJECT_VERSION = 1;",
       "\t\t\t\tGENERATE_INFOPLIST_FILE = YES;",
       "\t\t\t\tINFOPLIST_KEY_LSApplicationCategoryType = \"public.app-category.productivity\";",
       "\t\t\t\tINFOPLIST_KEY_NSHumanReadableCopyright = \"\";",
       "\t\t\t\tINFOPLIST_KEY_NSPrincipalClass = NSApplication;",
       "\t\t\t\tMARKETING_VERSION = 1.0;",
       "\t\t\t\tMACOS_DEPLOYMENT_TARGET = " ++ (MACOS_DEPLOY ++ ";"),
       "\t\t\t\tIPHONEOS_DEPLOYMENT_TARGET = " ++ (IOS_DEPLOY ++ ";"),
       "\t\t\t\tPRODUCT_BUNDLE_IDENTIFIER = \"" ++ (BUNDLE_ID_BASE ++ "\";"),
       "\t\t\t\tPRODUCT_NAME = \"$(TARGET_NAME)\";",
       "\t\t\t\tSDKROOT = auto;",
       "\t\t\t\tSUPPORTED_PLATFORMS = \"macosx iphoneos iphonesimulator\";",
       "\t\t\t\tSWIFT_EMIT_LOC_STRINGS = YES;",
       "\t\t\t\tSWIFT_VERSION = " ++ (SWIFT_VERSION ++ ";"),
       "\t\t\t\tTARGETED_DEVICE_FAMILY = \"1,2\";",
       "\t\t\t\x7d;",
       "\t\t\tname = Release;",
       "\t\t\x7d;"] ++ [sectionEnd "XCBuildConfiguration"]) := rfl

theorem cf_body_head (env : IdEnv) :
    ∀ l ∈ ["\t\t" ++ (env.DEBUG_CONFIG_UUID ++ " /* Debug */ = \x7b"),
       "\t\t\tisa = XCBuildConfiguration;",
       "\t\t\tbuildSettings = \x7b",
       "\t\t\t\tALWAYS_SEARCH_USER_PATHS = NO;",
       "\t\t\t\tCLANG_ENABLE_MODULES = YES;",
       "\t\t\t\tCOPY_PHASE_STRIP = NO;",
       "\t\t\t\tDEBUG_INFORMATION_FORMAT = dwarf;",
       "\t\t\t\tENABLE_STRICT_OBJC_MSGSEND = YES;",
       "\t\t\t\tENABLE_TESTABILITY = YES;",
       "\t\t\t\tGCC_C_LANGUAGE_STANDARD = gnu17;",
       "\t\t\t\tGCC_DYNAMIC_NO_PIC = NO;",
       "\t\t\t\tGCC_OPTIMIZATION_LEVEL = 0;",
       "\t\t\t\tGCC_PREPROCESSOR_DEFINITIONS = (\"DEBUG=1\", \"$(inherited)\");",
       "\t\t\t\tMTL_ENABLE_DEBUG_INFO = INCLUDE_SOURCE;",
       "\t\t\t\tMTL_FAST_MATH = YES;",
       "\t\t\t\tONLY_ACTIVE_ARCH = YES;",
       "\t\t\t\tSWIFT_ACTIVE_COMPILATION_CONDITIONS = DEBUG;",
       "\t\t\t\tSWIFT_OPTIMIZATION_LEVEL = \"-Onone\";",
       "\t\t\t\x7d;",
       "\t\t\tname = Debug;",
       "\t\t\x7d;",
       "\t\t" ++ (env.RELEASE_CONFIG_UUID ++ " /* Release */ = \x7b"),
       "\t\t\tisa = XCBuildConfiguration;",
       "\t\t\tbuildSettings = \x7b",
       "\t\t\t\tALWAYS_SEARCH_USER_PATHS = NO;",
       "\t\t\t\tCLANG_ENABLE_MODULES = YES;",
       "\t\t\t\tCOPY_PHASE_STRIP = NO;",
       "\t\t\t\tDEBUG_INFORMATION_FORMAT = \"dwarf-with-dsym\";",
       "\t\t\t\tENABLE_NS_ASSERTIONS = NO;",
       "\t\t\t\tENABLE_STRICT_OBJC_MSGSEND = YES;",
       "\t\t\t\tGCC_C_LANGUAGE_STANDARD = gnu17;",
       "\t\t\t\tMTL_ENABLE_DEBUG_INFO = NO;",
       "\t\t\t\tMTL_FAST_MATH = YES;",
       "\t\t\t\tSWIFT_COMPILATION_MODE = wholemodule;",
       "\t\t\t\tSWIFT_OPTIMIZATION_LEVEL = \"-O\";",
       "\t\t\t\x7d;",
       "\t\t\tname = Release;",
       "\t\t\x7d;",
       "\t\t" ++ (env.TARGET_DEBUG_CFG_UUID ++ " /* Debug */ = \x7b"),
       "\t\t\tisa = XCBuildConfiguration;",
       "\t\t\tbuildSettings = \x7b",
       "\t\t\t\tASSETCATALOG_COMPILER_APPICON_NAME = AppIcon;",
       "\t\t\t\tASSETCATALOG_COMPILER_GLOBAL_ACCENT_COLOR_NAME = AccentColor;",
       "\t\t\t\tCOMBINE_HIDPI_IMAGES = YES;",
       "\t\t\t\tCURRENT_PROJECT_VERSION = 1;",
       "\t\t\t\tGENERATE_INFOPLIST_FILE = YES;",
       "\t\t\t\tINFOPLIST_KEY_LSApplicationCategoryType = \"public.app-category.productivity\";",
       "\t\t\t\tINFOPLIST_KEY_NSHumanReadableCopyright = \"\";",
       "\t\t\t\tINFOPLIST_KEY_NSPrincipalClass = NSApplication;",
       "\t\t\t\tMARKETING_VERSION = 1.0;",
       "\t\t\t\tMACOS_DEPLOYMENT_TARGET = " ++ (MACOS_DEPLOY ++ ";"),
       "\t\t\t\tIPHONEOS_DEPLOYMENT_TARGET = " ++ (IOS_DEPLOY ++ ";"),
       "\t\t\t\tPRODUCT_BUNDLE_IDENTIFIER = \"" ++ (BUNDLE_ID_BASE ++ "\";"),
       "\t\t\t\tPRODUCT_NAME = \"$(TARGET_NAME)\";",
       "\t\t\t\tSDKROOT = auto;",
       "\t\t\t\tSUPPORTED_PLATFORMS = \"macosx iphoneos iphonesimulator\";",
       "\t\t\t\tSWIFT_EMIT_LOC_STRINGS = YES;",
       "\t\t\t\tSWIFT_VERSION = " ++ (SWIFT_VERSION ++ ";"),
       "\t\t\t\tTARGETED_DEVICE_FAMILY = \"1,2\";",
       "\t\t\t\x7d;",
       "\t\t\tname = Debug;",
       "\t\t\x7d;",
       "\t\t" ++ (env.TARGET_RELEASE_CFG_UUID ++ " /* Release */ = \x7b"),
       "\t\t\tisa = XCBuildConfiguration;",
       "\t\t\tbuildSettings = \x7b",
       "\t\t\t\tASSETCATALOG_COMPILER_APPICON_NAME = AppIcon;",
       "\t\t\t\tASSETCATALOG_COMPILER_GLOBAL_ACCENT_COLOR_NAME = AccentColor;",
       "\t\t\t\tCOMBINE_HIDPI_IMAGES = YES;",
       "\t\t\t\tCURRENT_PROJECT_VERSION = 1;",
       "\t\t\t\tGENERATE_INFOPLIST_FILE = YES;",
       "\t\t\t\tINFOPLIST_KEY_LSApplicationCategoryType = \"public.app-category.productivity\";",
       "\t\t\t\tINFOPLIST_KEY_NSHumanReadableCopyright = \"\";",
       "\t\t\t\tINFOPLIST_KEY_NSPrincipalClass = NSApplication;",
       "\t\t\t\tMARKETING_VERSION = 1.0;",
       "\t\t\t\tMACOS_DEPLOYMENT_TARGET = " ++ (MACOS_DEPLOY ++ ";"),
       "\t\t\t\tIPHONEOS_DEPLOYMENT_TARGET = " ++ (IOS_DEPLOY ++ ";"),
       "\t\t\t\tPRODUCT_BUNDLE_IDENTIFIER = \"" ++ (BUNDLE_ID_BASE ++ "\";"),
       "\t\t\t\tPRODUCT_NAME = \"$(TARGET_NAME)\";",
       "\t\t\t\tSDKROOT = auto;",
       "\t\t\t\tSUPPORTED_PLATFORMS = \"macosx iphoneos iphonesimulator\";",
       "\t\t\t\tSWIFT_EMIT_LOC_STRINGS = YES;",
       "\t\t\t\tSWIFT_VERSION = " ++ (SWIFT_VERSION ++ ";"),
       "\t\t\t\tTARGETED_DEVICE_FAMILY = \"1,2\";",
       "\t\t\t\x7d;",
       "\t\t\tname = Release;",
       "\t\t\x7d;"],
      l.data.head? = some '\t' := by
  intro l hl
  simp only [List.mem_cons, List.not_mem_nil, or_false] at hl
  rcases hl with rfl | rfl | rfl | rfl | rfl | rfl | rfl | rfl | rfl | rfl | rfl | rfl | rfl | rfl | rfl | rfl | rfl | rfl | rfl | rfl | rfl | rfl | rfl | rfl | rfl | rfl | rfl | rfl | rfl | rfl | rfl | rfl | rfl | rfl | rfl | rfl | rfl | rfl | rfl | rfl | rfl | rfl | rfl | rfl | rfl | rfl | rfl | rfl | rfl | rfl | rfl | rfl | rfl | rfl | rfl | rfl | rfl | rfl | rfl | rfl | rfl | rfl | rfl | rfl | rfl | rfl | rfl | rfl | rfl | rfl | rfl | rfl | rfl | rfl | rfl | rfl | rfl | rfl | rfl | rfl | rfl | rfl | rfl | rfl | rfl | rfl
  all_goals first | rfl | exact head_append_of_some _ _ _ rfl


theorem cl_eq (env : IdEnv) : cfgListSectionLines env =
    sectionHead "XCConfigurationList" ::
      (["\t\t" ++ (env.PROJECT_CFGLIST_UUID ++ " /* Build configuration list for PBXProject \"" ++ APP_NAME ++ "\" */ = \x7b"),
       "\t\t\tisa = XCConfigurationList;",
       "\t\t\tbuildConfigurations = (",
       "\t\t\t\t" ++ (env.DEBUG_CONFIG_UUID ++ " /* Debug */,"),
       "\t\t\t\t" ++ (env.RELEASE_CONFIG_UUID ++ " /* Release */,"),
       "\t\t\t);",
       "\t\t\tdefaultConfigurationIsVisible = 0;",
       "\t\t\tdefaultConfigurationName = Release;",
       "\t\t\x7d;",
       "\t\t" ++ (env.TARGET_CFGLIST_UUID ++ " /* Build configuration list for PBXNativeTarget \"" ++ APP_NAME ++ "\" */ = \x7b"),
       "\t\t\tisa = XCConfigurationList;",
       "\t\t\tbuildConfigurations = (",
       "\t\t\t\t" ++ (env.TARGET_DEBUG_CFG_UUID ++ " /* Debug */,"),
       "\t\t\t\t" ++ (env.TARGET_RELEASE_CFG_UUID ++ " /* Release */,"),
       "\t\t\t);",
       "\t\t\tdefaultConfigurationIsVisible = 0;",
       "\t\t\tdefaultConfigurationName = Release;",
       "\t\t\x7d;"] ++ [sectionEnd "XCConfigurationList"]) := rfl

theorem cl_body_head (env : IdEnv) :
    ∀ l ∈ ["\t\t" ++ (env.PROJECT_CFGLIST_UUID ++ " /* Build configuration list for PBXProject \"" ++ APP_NAME ++ "\" */ = \x7b"),
       "\t\t\tisa = XCConfigurationList;",
       "\t\t\tbuildConfigurations = (",
       "\t\t\t\t" ++ (env.DEBUG_CONFIG_UUID ++ " /* Debug */,"),
       "\t\t\t\t" ++ (env.RELEASE_CONFIG_UUID ++ " /* Release */,"),
       "\t\t\t);",
       "\t\t\tdefaultConfigurationIsVisible = 0;",
       "\t\t\tdefaultConfigurationName = Release;",
       "\t\t\x7d;",
       "\t\t" ++ (env.TARGET_CFGLIST_UUID ++ " /* Build configuration list for PBXNativeTarget \"" ++ APP_NAME ++ "\" */ = \x7b"),
       "\t\t\tisa = XCConfigurationList;",
       "\t\t\tbuildConfigurations = (",
       "\t\t\t\t" ++ (env.TARGET_DEBUG_CFG_UUID ++ " /* Debug */,"),
       "\t\t\t\t" ++ (env.TARGET_RELEASE_CFG_UUID ++ " /* Release */,"),
       "\t\t\t);",
       "\t\t\tdefaultConfigurationIsVisible = 0;",
       "\t\t\tdefaultConfigurationName = Release;",
       "\t\t\x7d;"],
      l.data.head? = some '\t' := by
  intro l hl
  simp only [List.mem_cons, List.not_mem_nil, or_false] at hl
  rcases hl with rfl | rfl | rfl | rfl | rfl | rfl | rfl | rfl | rfl | rfl | rfl | rfl | rfl | rfl | rfl | rfl | rfl | rfl
  all_goals first | rfl | exact head_append_of_some _ _ _ rfl

theorem bf_eq (env : IdEnv) (m : Manifest) : buildFileSectionLines env m =
    sectionHead "PBXBuildFile" ::
      (((dictKeys m).map (buildFileLine env) ++ [swiftdataBuildLine env]) ++
        [sectionEnd "PBXBuildFile"]) := by
  rw [buildFileSectionLines]
  simp [List.append_assoc]

theorem bf_body_head (env : IdEnv) (m : Manifest) :
    ∀ l ∈ (dictKeys m).map (buildFileLine env) ++ [swiftdataBuildLine env],
      l.data.head? = some '\t' := by
  intro l hl
  rcases List.mem_append.mp hl with hl | hl
  · rcases List.mem_map.mp hl with ⟨p, _, rfl⟩
    exact buildFileLine_head env p
  · rw [List.mem_singleton.mp hl]
    exact swiftdataBuildLine_head env

theorem fr_eq (env : IdEnv) (m : Manifest) : fileRefSectionLines env m =
    sectionHead "PBXFileReference" ::
      (((dictKeys m).filterMap (fileRefLineOpt env) ++
        [productRefLine env, swiftdataRefLine env]) ++
        [sectionEnd "PBXFileReference"]) := by
  rw [fileRefSectionLines]
  simp [List.append_assoc]

theorem fr_body_head (env : IdEnv) (m : Manifest) :
    ∀ l ∈ (dictKeys m).filterMap (fileRefLineOpt env) ++
        [productRefLine env, swiftdataRefLine env],
      l.data.head? = some '\t' := by
  intro l hl
  rcases List.mem_append.mp hl with hl | hl
  · rcases List.mem_filterMap.mp hl with ⟨p, _, hp⟩
    exact fileRefOpt_head env p l hp
  · simp only [List.mem_cons, List.not_mem_nil, or_false] at hl
    rcases hl with rfl | rfl
    · exact productRefLine_head env
    · exact swiftdataRefLine_head env

theorem gp_eq (env : IdEnv) (m : Manifest) : groupSectionLines env m =
    sectionHead "PBXGroup" ::
      ((("\t\t" ++ (env.MAIN_GROUP_UUID ++ " = \x7b")) ::
        "\t\t\tisa = PBXGroup;" ::
        "\t\t\tchildren = (" ::
        ((dictKeys m).map (groupChildLine env) ++
        ["\t\t\t\t" ++ (env.PRODUCTS_GROUP_UUID ++ " /* Products */,"),
         "\t\t\t\t" ++ (env.SWIFTDATA_FW_REF_UUID ++ " /* SwiftData.framework */,"),
         "\t\t\t);",
         "\t\t\tsourceTree = \"<group>\";",
         "\t\t\x7d;",
         "\t\t" ++ (env.PRODUCTS_GROUP_UUID ++ " /* Products */ = \x7b"),
         "\t\t\tisa = PBXGroup;",
         "\t\t\tchildren = (",
         "\t\t\t\t" ++ (env.PRODUCT_REF_UUID ++ " /* " ++ APP_NAME ++ ".app */,"),
         "\t\t\t);",
         "\t\t\tname = Products;",
         "\t\t\tsourceTree = \"<group>\";",
         "\t\t\x7d;"])) ++
        [sectionEnd "PBXGroup"]) := by
  rw [groupSectionLines]
  simp [List.append_assoc]

theorem gp_body_head (env : IdEnv) (m : Manifest) :
    ∀ l ∈ (("\t\t" ++ (env.MAIN_GROUP_UUID ++ " = \x7b")) ::
        "\t\t\tisa = PBXGroup;" ::
        "\t\t\tchildren = (" ::
        ((dictKeys m).map (groupChildLine env) ++
        ["\t\t\t\t" ++ (env.PRODUCTS_GROUP_UUID ++ " /* Products */,"),
         "\t\t\t\t" ++ (env.SWIFTDATA_FW_REF_UUID ++ " /* SwiftData.framework */,"),
         "\t\t\t);",
         "\t\t\tsourceTree = \"<group>\";",
         "\t\t\x7d;",
         "\t\t" ++ (env.PRODUCTS_GROUP_UUID ++ " /* Products */ = \x7b"),
         "\t\t\tisa = PBXGroup;",
         "\t\t\tchildren = (",
         "\t\t\t\t" ++ (env.PRODUCT_REF_UUID ++ " /* " ++ APP_NAME ++ ".app */,"),
         "\t\t\t);",
         "\t\t\tname = Products;",
         "\t\t\tsourceTree = \"<group>\";",
         "\t\t\x7d;"])),
      l.data.head? = some '\t' := by
  intro l hl
  simp only [List.mem_cons, List.mem_append, List.mem_map, List.not_mem_nil, or_false] at hl
  rcases hl with rfl | rfl | rfl | ⟨p, _, rfl⟩ | rfl | rfl | rfl | rfl | rfl | rfl | rfl | rfl | rfl | rfl | rfl | rfl | rfl
  all_goals first | rfl | exact groupChildLine_head env _ | exact head_append_of_some _ _ _ rfl

theorem rs_eq (env : IdEnv) (m : Manifest) : resourcesSectionLines env m =
    sectionHead "PBXResourcesBuildPhase" ::
      ((("\t\t" ++ (env.RESOURCES_PHASE_UUID ++ " /* Resources */ = \x7b")) ::
        "\t\t\tisa = PBXResourcesBuildPhase;" ::
        "\t\t\tbuildActionMask = 2147483647;" ::
        "\t\t\tfiles = (" ::
        ((if ASSETS_XCASSETS ∈ dictKeys m then
            ["\t\t\t\t" ++ (env.build_files ASSETS_XCASSETS ++ " /* " ++ basename ASSETS_XCASSETS ++ " in Resources */,")]
          else []) ++
        ["\t\t\t);",
         "\t\t\trunOnlyForDeploymentPostprocessing = 0;",
         "\t\t\x7d;"])) ++
        [sectionEnd "PBXResourcesBuildPhase"]) := by
  rw [resourcesSectionLines]
  simp [List.append_assoc]

theorem rs_body_head (env : IdEnv) (m : Manifest) :
    ∀ l ∈ (("\t\t" ++ (env.RESOURCES_PHASE_UUID ++ " /* Resources */ = \x7b")) ::
        "\t\t\tisa = PBXResourcesBuildPhase;" ::
        "\t\t\tbuildActionMask = 2147483647;" ::
        "\t\t\tfiles = (" ::
        ((if ASSETS_XCASSETS ∈ dictKeys m then
            ["\t\t\t\t" ++ (env.build_files ASSETS_XCASSETS ++ " /* " ++ basename ASSETS_XCASSETS ++ " in Resources */,")]
          else []) ++
        ["\t\t\t);",
         "\t\t\trunOnlyForDeploymentPostprocessing = 0;",
         "\t\t\x7d;"])),
      l.data.head? = some '\t' := by
  intro l hl
  simp only [List.mem_cons, List.mem_append, List.not_mem_nil, or_false] at hl
  rcases hl with rfl | rfl | rfl | rfl | hl2 | rfl | rfl | rfl
  · rfl
  · rfl
  · rfl
  · rfl
  · by_cases hA : ASSETS_XCASSETS ∈ dictKeys m
    · rw [if_pos hA] at hl2
      rw [List.mem_singleton.mp hl2]
      rfl
    · rw [if_neg hA] at hl2
      exact absurd hl2 (List.not_mem_nil l)
  · rfl
  · rfl
  · rfl

theorem sc_eq (env : IdEnv) (m : Manifest) : sourcesSectionLines env m =
    sectionHead "PBXSourcesBuildPhase" ::
      ((("\t\t" ++ (env.SOURCES_PHASE_UUID ++ " /* Sources */ = \x7b")) ::
        "\t\t\tisa = PBXSourcesBuildPhase;" ::
        "\t\t\tbuildActionMask = 2147483647;" ::
        "\t\t\tfiles = (" ::
        (m.sources.map (sourcesPhaseLine env) ++
        ["\t\t\t);",
         "\t\t\trunOnlyForDeploymentPostprocessing = 0;",
         "\t\t\x7d;"])) ++
        [sectionEnd "PBXSourcesBuildPhase"]) := by
  rw [sourcesSectionLines]
  simp [List.append_assoc]

theorem sc_body_head (env : IdEnv) (m : Manifest) :
    ∀ l ∈ (("\t\t" ++ (env.SOURCES_PHASE_UUID ++ " /* Sources */ = \x7b")) ::
        "\t\t\tisa = PBXSourcesBuildPhase;" ::
        "\t\t\tbuildActionMask = 2147483647;" ::
        "\t\t\tfiles = (" ::
        (m.sources.map (sourcesPhaseLine env) ++
        ["\t\t\t);",
         "\t\t\trunOnlyForDeploymentPostprocessing = 0;",
         "\t\t\x7d;"])),
      l.data.head? = some '\t' := by
  intro l hl
  simp only [List.mem_cons, List.mem_append, List.mem_map, List.not_mem_nil, or_false] at hl
  rcases hl with rfl | rfl | rfl | rfl | ⟨p, _, rfl⟩ | rfl | rfl | rfl
  all_goals first | rfl | exact sourcesPhaseLine_head env _ | exact head_append_of_some _ _ _ rfl

theorem headerLines_fb : headerLines.filter (fun l => decide (l ∈ beginMarkers)) = [] := by
  decide

theorem headerLines_fe : headerLines.filter (fun l => decide (l ∈ endMarkers)) = [] := by
  decide

theorem footer_fb (env : IdEnv) :
    (footerLines env).filter (fun l => decide (l ∈ beginMarkers)) = [] := by
  rw [List.filter_eq_nil_iff]
  intro a ha
  simp only [footerLines, List.mem_cons, List.not_mem_nil, or_false] at ha
  simp only [decide_eq_true_eq]
  rcases ha with rfl | rfl | rfl
  · decide
  · exact not_in_begin_of_head _ '\t' (head_append_of_some _ _ _ rfl) (by decide)
  · decide

theorem footer_fe (env : IdEnv) :
    (footerLines env).filter (fun l => decide (l ∈ endMarkers)) = [] := by
  rw [List.filter_eq_nil_iff]
  intro a ha
  simp only [footerLines, List.mem_cons, List.not_mem_nil, or_false] at ha
  simp only [decide_eq_true_eq]
  rcases ha with rfl | rfl | rfl
  · decide
  · exact not_in_end_of_head _ '\t' (head_append_of_some _ _ _ rfl) (by decide)
  · decide

/-- Claim C3: the descriptor text renders its ten object sections in
exactly the order PBXBuildFile, PBXFileReference, PBXFrameworksBuildPhase,
PBXGroup, PBXNativeTarget, PBXProject, PBXResourcesBuildPhase,
PBXSourcesBuildPhase, XCBuildConfiguration, XCConfigurationList — the
section marker lines occur exactly once each, in that order — and carries
the single fixed framework dependency, the main and Products groups, the
single target, the project object, the four build configurations and the
two configuration lists with their two variants each. -/
theorem pbxproj_section_order :
    ∀ (env : IdEnv) (m : Manifest),
      (pbxprojLines env m).filter (fun l => decide (l ∈ beginMarkers)) = beginMarkers ∧
      (pbxprojLines env m).filter (fun l => decide (l ∈ endMarkers)) = endMarkers ∧
      ("\t\t\t\t" ++ (env.SWIFTDATA_BUILD_UUID ++ " /* SwiftData.framework in Frameworks */,"))
        ∈ pbxprojLines env m ∧
      ("\t\t" ++ (env.MAIN_GROUP_UUID ++ " = \x7b")) ∈ pbxprojLines env m ∧
      ("\t\t" ++ (env.PRODUCTS_GROUP_UUID ++ " /* Products */ = \x7b")) ∈ pbxprojLines env m ∧
      ("\t\t" ++ (env.TARGET_UUID ++ " /* " ++ APP_NAME ++ " */ = \x7b")) ∈ pbxprojLines env m ∧
      ("\t\t" ++ (env.PROJECT_UUID ++ " /* Project object */ = \x7b")) ∈ pbxprojLines env m ∧
      ("\t\t" ++ (env.DEBUG_CONFIG_UUID ++ " /* Debug */ = \x7b")) ∈ pbxprojLines env m ∧
      ("\t\t" ++ (env.RELEASE_CONFIG_UUID ++ " /* Release */ = \x7b")) ∈ pbxprojLines env m ∧
      ("\t\t" ++ (env.TARGET_DEBUG_CFG_UUID ++ " /* Debug */ = \x7b")) ∈ pbxprojLines env m ∧
      ("\t\t" ++ (env.TARGET_RELEASE_CFG_UUID ++ " /* Release */ = \x7b")) ∈ pbxprojLines env m ∧
      ("\t\t\t\t" ++ (env.DEBUG_CONFIG_UUID ++ " /* Debug */,")) ∈ pbxprojLines env m ∧
      ("\t\t\t\t" ++ (env.RELEASE_CONFIG_UUID ++ " /* Release */,")) ∈ pbxprojLines env m ∧
      ("\t\t\t\t" ++ (env.TARGET_DEBUG_CFG_UUID ++ " /* Debug */,")) ∈ pbxprojLines env m ∧
      ("\t\t\t\t" ++ (env.TARGET_RELEASE_CFG_UUID ++ " /* Release */,")) ∈ pbxprojLines env m := by
  intro env m
  refine ⟨?_, ?_, ?_, ?_, ?_, ?_, ?_, ?_, ?_, ?_, ?_, ?_, ?_, ?_, ?_⟩
  · rw [pbxprojLines]
    simp only [List.filter_append]
    rw [bf_eq, fr_eq, fw_eq, gp_eq, tg_eq, pj_eq, rs_eq, sc_eq, cf_eq, cl_eq]
    rw [filter_begin_section _ _ (by decide) (bf_body_head env m),
        filter_begin_section _ _ (by decide) (fr_body_head env m),
        filter_begin_section _ _ (by decide) (fw_body_head env),
        filter_begin_section _ _ (by decide) (gp_body_head env m),
        filter_begin_section _ _ (by decide) (tg_body_head env),
        filter_begin_section _ _ (by decide) (pj_body_head env),
        filter_begin_section _ _ (by decide) (rs_body_head env m),
        filter_begin_section _ _ (by decide) (sc_body_head env m),
        filter_begin_section _ _ (by decide) (cf_body_head env),
        filter_begin_section _ _ (by decide) (cl_body_head env),
        headerLines_fb, footer_fb env]
    rfl
  · rw [pbxprojLines]
    simp only [List.filter_append]
    rw [bf_eq, fr_eq, fw_eq, gp_eq, tg_eq, pj_eq, rs_eq, sc_eq, cf_eq, cl_eq]
    rw [filter_end_section _ _ (by decide) (bf_body_head env m),
        filter_end_section _ _ (by decide) (fr_body_head env m),
        filter_end_section _ _ (by decide) (fw_body_head env),
        filter_end_section _ _ (by decide) (gp_body_head env m),
        filter_end_section _ _ (by decide) (tg_body_head env),
        filter_end_section _ _ (by decide) (pj_body_head env),
        filter_end_section _ _ (by decide) (rs_body_head env m),
        filter_end_section _ _ (by decide) (sc_body_head env m),
        filter_end_section _ _ (by decide) (cf_body_head env),
        filter_end_section _ _ (by decide) (cl_body_head env),
        headerLines_fe, footer_fe env]
    rfl
  · simp [pbxprojLines, frameworksSectionLines]
  · simp [pbxprojLines, groupSectionLines]
  · simp [pbxprojLines, groupSectionLines]
  · simp [pbxprojLines, targetSectionLines]
  · simp [pbxprojLines, projectSectionLines]
  · simp [pbxprojLines, configSectionLines]
  · simp [pbxprojLines, configSectionLines]
  · simp [pbxprojLines, configSectionLines]
  · simp [pbxprojLines, configSectionLines]
  · simp [pbxprojLines, cfgListSectionLines]
  · simp [pbxprojLines, cfgListSectionLines]
  · simp [pbxprojLines, cfgListSectionLines]
  · simp [pbxprojLines, cfgListSectionLines]
